import Mathlib

/-!
Shallow embedding of the HR reference-checker system
(`hr_referenceChecker_system`): the `Template`/`Question` models of
`form_templates/models.py`, the `Form` model of `forms/models.py`, and the
`Response`/`Answer` models of `responses/models.py`, together with a
transition system over a database state covering the operations those
modules perform.

Modelling conventions:
* Django text fields are `String`, booleans are `Bool`, integer fields are
  `Int` (or `Nat` for `PositiveIntegerField` and primary keys), nullable
  fields are `Option`, and JSON list/dict fields are `List`.
* Python values that flow into `validate_answer` can be `None`, a string,
  or a list of strings (checkbox submissions); the type `Ans` covers these.
* A function that can raise an uncaught Python exception returns
  `Except String` with the exception class name as the error payload.
* Auto-generated timestamps (`created_at`, `auto_now` fields) and the
  metadata JSON of `Response` play no role in any verified property and are
  omitted from the record types; `submitted_at` (set by `mark_completed`)
  is kept as an abstract `Option Nat` clock value.
-/

namespace RefCheck

/-! ## Python semantics helpers -/

deriving instance DecidableEq for Except

/-- The characters Python `str.strip()` removes (modelled for the ASCII
whitespace characters: space, tab, newline, carriage return, vertical tab,
form feed). -/
def pyIsSpace (c : Char) : Bool :=
  c == ' ' || c == '\t' || c == '\n' || c == '\r' || c == '\x0b' || c == '\x0c'

/-- Python `str.strip()` with no argument: remove leading and trailing
whitespace. -/
def pyStrip (s : String) : String :=
  String.mk (((s.toList.dropWhile pyIsSpace).reverse.dropWhile pyIsSpace).reverse)

/-- Digit tail of Python `int(str)` parsing: after the first digit, a
decimal literal may contain single underscores, each strictly between two
digits. `acc` is the numeric value of the digits consumed so far. -/
def pyDigitsAux : Nat → List Char → Option Nat
  | acc, [] => some acc
  | acc, c :: rest =>
      if c.isDigit then pyDigitsAux (acc * 10 + (c.toNat - 48)) rest
      else if c == '_' then
        match rest with
        | [] => Option.none
        | d :: rest2 =>
            if d.isDigit then pyDigitsAux (acc * 10 + (d.toNat - 48)) rest2
            else Option.none
      else Option.none

/-- Unsigned part of Python `int(str)`: must begin with a digit. -/
def pyLeadDigits : List Char → Option Nat
  | [] => Option.none
  | c :: rest => if c.isDigit then pyDigitsAux (c.toNat - 48) rest else Option.none

/-- Signed decimal literal: an optional single `+` or `-` immediately
followed by digits. -/
def pySignedDigits : List Char → Option Int
  | [] => Option.none
  | c :: rest =>
      if c == '+' then Option.map (fun n => (n : Int)) (pyLeadDigits rest)
      else if c == '-' then Option.map (fun n => -(n : Int)) (pyLeadDigits rest)
      else Option.map (fun n => (n : Int)) (pyLeadDigits (c :: rest))

/-- Python `int(s)` on a string: strip surrounding whitespace, then parse a
signed decimal literal; `Option.none` models a raised `ValueError`. -/
def pyParseInt (s : String) : Option Int := pySignedDigits (pyStrip s).toList

/-- A value submitted as an answer: Python `None`, a string, or a list of
strings (as produced by `getlist` for checkbox questions). -/
inductive Ans where
  | none
  | str (s : String)
  | list (xs : List String)
deriving DecidableEq

/-- Python truthiness of an answer value: `None`, the empty string and the
empty list are falsy. -/
def Ans.truthy : Ans → Bool
  | Ans.none => false
  | Ans.str s => !(s == "")
  | Ans.list xs => !xs.isEmpty

/-- Python `len` on an answer value; `Option.none` models the `TypeError`
raised by `len(None)`. -/
def Ans.pyLen : Ans → Option Int
  | Ans.none => Option.none
  | Ans.str s => some (s.length : Int)
  | Ans.list xs => some (xs.length : Int)

/-- Python `int(answer)` on an answer value: `None` and lists raise
`TypeError`, strings parse as decimal literals or raise `ValueError`; both
exceptions are modelled as `Option.none` (the caller catches them). -/
def Ans.pyInt : Ans → Option Int
  | Ans.none => Option.none
  | Ans.str s => pyParseInt s
  | Ans.list _ => Option.none

/-- Python `answer in choices` where `choices` is a list of strings: only a
string answer can equal a member. -/
def Ans.inChoices : Ans → List String → Bool
  | Ans.str s, cs => cs.contains s
  | Ans.none, _ => false
  | Ans.list _, _ => false

/-- Python `str.isdigit()`: non-empty and all characters digits. -/
def pyStrIsDigit (s : String) : Bool := !(s == "") && s.toList.all Char.isDigit

/-! ## form_templates/models.py: QuestionType -/

/-- The `QuestionType` `TextChoices` enumeration (nine values). -/
inductive QuestionType where
  | TEXT
  | TEXTAREA
  | SELECT
  | RADIO
  | CHECKBOX
  | RATING
  | DATE
  | EMAIL
  | PHONE
deriving DecidableEq

/-- The stored string value of each `QuestionType` member. -/
def QuestionType.value : QuestionType → String
  | QuestionType.TEXT => "TEXT"
  | QuestionType.TEXTAREA => "TEXTAREA"
  | QuestionType.SELECT => "SELECT"
  | QuestionType.RADIO => "RADIO"
  | QuestionType.CHECKBOX => "CHECKBOX"
  | QuestionType.RATING => "RATING"
  | QuestionType.DATE => "DATE"
  | QuestionType.EMAIL => "EMAIL"
  | QuestionType.PHONE => "PHONE"

/-! ## form_templates/models.py: Question -/

/-- The `Question` model row. `choices` is the JSON list field (kept as a
list of strings, the shape every call site writes), `rating_labels` the
JSON dict field as an association list, `max_length` the nullable
`IntegerField`. -/
structure Question where
  id : Nat
  template_id : Nat
  question_text : String
  question_type : QuestionType
  is_required : Bool
  order : Nat
  choices : List String
  rating_scale : Nat
  rating_labels : List (String × String)
  max_length : Option Int
  placeholder : String
  help_text : String
deriving DecidableEq

/-- `Question.get_choices_list`: the `choices` field is typed as a list in
this embedding, so the `isinstance` guard of the source always succeeds. -/
def Question.get_choices_list (q : Question) : List String := q.choices

/-- Tail of `_validate_text_answer`: the
`if self.max_length and len(answer) > self.max_length` check (a falsy
`max_length`, i.e. `None` or `0`, skips the check; `len` of `None` raises). -/
def Question.text_length_check (q : Question) (a : Ans) : Except String (Bool × String) :=
  match q.max_length with
  | Option.none => Except.ok (true, "")
  | some m =>
      if m == 0 then Except.ok (true, "")
      else
        match Ans.pyLen a with
        | Option.none => Except.error "TypeError"
        | some n =>
            if n > m then
              Except.ok (false, "Answer must be " ++ toString m ++ " characters or less")
            else Except.ok (true, "")

/-- `Question._validate_text_answer`. When `is_required` holds the source
evaluates `answer.strip()`, which raises `AttributeError` unless the answer
is a string; otherwise short-circuiting skips straight to the length
check. -/
def Question.validate_text_answer (q : Question) (a : Ans) : Except String (Bool × String) :=
  if q.is_required then
    match a with
    | Ans.str s =>
        if pyStrip s == "" then Except.ok (false, "This field is required")
        else Question.text_length_check q a
    | _ => Except.error "AttributeError"
  else Question.text_length_check q a

/-- `Question._validate_single_choice_answer`. -/
def Question.validate_single_choice_answer (q : Question) (a : Ans) : Bool × String :=
  if q.is_required && !(Ans.truthy a) then (false, "This field is required")
  else if Ans.truthy a && !(Ans.inChoices a (Question.get_choices_list q)) then
    (false, "Invalid option selected")
  else (true, "")

/-- The `for ans in answer` loop of `_validate_multiple_choice_answer`. -/
def Question.multi_choice_loop (q : Question) : List String → Bool × String
  | [] => (true, "")
  | x :: xs =>
      if !((Question.get_choices_list q).contains x) then (false, "Invalid option selected")
      else Question.multi_choice_loop q xs

/-- `Question._validate_multiple_choice_answer`. A bare string is wrapped
into a singleton list; iterating over `None` raises `TypeError`. -/
def Question.validate_multiple_choice_answer (q : Question) (a : Ans) : Except String (Bool × String) :=
  if q.is_required && !(Ans.truthy a) then Except.ok (false, "This field is required")
  else
    match a with
    | Ans.str s => Except.ok (Question.multi_choice_loop q [s])
    | Ans.list xs => Except.ok (Question.multi_choice_loop q xs)
    | Ans.none => Except.error "TypeError"

/-- `Question._validate_rating_answer`. `int(answer)` raises `TypeError`
for `None` and lists and `ValueError` for unparsable strings; both are
caught and reported as an invalid rating. -/
def Question.validate_rating_answer (q : Question) (a : Ans) : Bool × String :=
  if q.is_required && a == Ans.none then (false, "This field is required")
  else
    match Ans.pyInt a with
    | Option.none => (false, "Invalid rating value")
    | some r =>
        if r < 1 || r > (q.rating_scale : Int) then
          (false, "Rating must be between 1 and " ++ toString q.rating_scale)
        else (true, "")

/-- The `'@' in answer` membership test of `_validate_email_answer`:
substring test on a string, element test on a list. -/
def Ans.containsAt : Ans → Bool
  | Ans.str s => s.contains '@'
  | Ans.list xs => xs.contains "@"
  | Ans.none => false

/-- Tail of `_validate_email_answer`: the `if answer and '@' not in answer`
check. -/
def Question.email_at_check (a : Ans) : Except String (Bool × String) :=
  if Ans.truthy a && !(Ans.containsAt a) then
    Except.ok (false, "Please enter a valid email address")
  else Except.ok (true, "")

/-- `Question._validate_email_answer`. As in the text case, a required
question evaluates `answer.strip()` and so raises unless the answer is a
string. -/
def Question.validate_email_answer (q : Question) (a : Ans) : Except String (Bool × String) :=
  if q.is_required then
    match a with
    | Ans.str s =>
        if pyStrip s == "" then Except.ok (false, "This field is required")
        else Question.email_at_check a
    | _ => Except.error "AttributeError"
  else Question.email_at_check a

/-- The `any(char.isdigit() for char in answer)` test of
`_validate_phone_answer`: character test on a string, `str.isdigit` on the
elements of a list. -/
def Ans.anyDigit : Ans → Bool
  | Ans.str s => s.toList.any Char.isDigit
  | Ans.list xs => xs.any pyStrIsDigit
  | Ans.none => false

/-- Tail of `_validate_phone_answer`. -/
def Question.phone_digit_check (a : Ans) : Except String (Bool × String) :=
  if Ans.truthy a && !(Ans.anyDigit a) then
    Except.ok (false, "Please enter a valid phone number")
  else Except.ok (true, "")

/-- `Question._validate_phone_answer`. -/
def Question.validate_phone_answer (q : Question) (a : Ans) : Except String (Bool × String) :=
  if q.is_required then
    match a with
    | Ans.str s =>
        if pyStrip s == "" then Except.ok (false, "This field is required")
        else Question.phone_digit_check a
    | _ => Except.error "AttributeError"
  else Question.phone_digit_check a

/-- `Question._validate_date_answer`. -/
def Question.validate_date_answer (q : Question) (a : Ans) : Bool × String :=
  if q.is_required && !(Ans.truthy a) then (false, "This field is required")
  else (true, "")

/-- `Question.validate_answer`: dispatch on `question_type`. The source's
final `else` branch (`return True, ""`) is unreachable because the nine
enumeration members are all covered. -/
def Question.validate_answer (q : Question) (a : Ans) : Except String (Bool × String) :=
  match q.question_type with
  | QuestionType.TEXT => Question.validate_text_answer q a
  | QuestionType.TEXTAREA => Question.validate_text_answer q a
  | QuestionType.SELECT => Except.ok (Question.validate_single_choice_answer q a)
  | QuestionType.RADIO => Except.ok (Question.validate_single_choice_answer q a)
  | QuestionType.CHECKBOX => Question.validate_multiple_choice_answer q a
  | QuestionType.RATING => Except.ok (Question.validate_rating_answer q a)
  | QuestionType.EMAIL => Question.validate_email_answer q a
  | QuestionType.PHONE => Question.validate_phone_answer q a
  | QuestionType.DATE => Except.ok (Question.validate_date_answer q a)

/-! ## form_templates/models.py: Question HTML rendering

The multi-line f-string literals of the source are reproduced with their
attribute content and element structure; interior indentation whitespace of
the triple-quoted literals is normalised. -/

/-- `Question._render_text_input`. -/
def Question.render_text_input (q : Question) : String :=
  let required := if q.is_required then "required" else ""
  let placeholder :=
    if !(q.placeholder == "") then "placeholder=\"" ++ q.placeholder ++ "\"" else ""
  let maxlength :=
    match q.max_length with
    | some m => if !(m == 0) then "maxlength=\"" ++ toString m ++ "\"" else ""
    | Option.none => ""
  "<input type=\"text\" name=\"question_" ++ toString q.id ++ "\" " ++ required ++ " "
    ++ placeholder ++ " " ++ maxlength ++ " class=\"form-control\">"

/-- `Question._render_textarea`. -/
def Question.render_textarea (q : Question) : String :=
  let required := if q.is_required then "required" else ""
  let placeholder :=
    if !(q.placeholder == "") then "placeholder=\"" ++ q.placeholder ++ "\"" else ""
  let maxlength :=
    match q.max_length with
    | some m => if !(m == 0) then "maxlength=\"" ++ toString m ++ "\"" else ""
    | Option.none => ""
  "<textarea name=\"question_" ++ toString q.id ++ "\" " ++ required ++ " "
    ++ placeholder ++ " " ++ maxlength ++ " class=\"form-control\" rows=\"4\"></textarea>"

/-- `Question._render_select`. -/
def Question.render_select (q : Question) : String :=
  let required := if q.is_required then "required" else ""
  let head := "<select name=\"question_" ++ toString q.id ++ "\" " ++ required
    ++ " class=\"form-select\">"
  let head2 :=
    if !q.is_required then head ++ "<option value=\"\">-- Select an option --</option>"
    else head
  let body := (Question.get_choices_list q).foldl
    (fun h o => h ++ "<option value=\"" ++ o ++ "\">" ++ o ++ "</option>") head2
  body ++ "</select>"

/-- One iteration of the `_render_radio` loop (option index `i`). -/
def Question.radio_option (q : Question) (i : Nat) (o : String) : String :=
  let required := if q.is_required then "required" else ""
  "\n<div class=\"form-check\">\n<input class=\"form-check-input\" type=\"radio\" \n"
    ++ "name=\"question_" ++ toString q.id ++ "\" value=\"" ++ o ++ "\" id=\"q"
    ++ toString q.id ++ "_opt" ++ toString i ++ "\" " ++ required ++ ">\n"
    ++ "<label class=\"form-check-label\" for=\"q" ++ toString q.id ++ "_opt"
    ++ toString i ++ "\">\n" ++ o ++ "\n</label>\n</div>\n"

/-- `Question._render_radio`. -/
def Question.render_radio (q : Question) : String :=
  String.join ((Question.get_choices_list q).enum.map
    (fun p => Question.radio_option q p.1 p.2))

/-- One iteration of the `_render_checkbox` loop. -/
def Question.checkbox_option (q : Question) (i : Nat) (o : String) : String :=
  "\n<div class=\"form-check\">\n<input class=\"form-check-input\" type=\"checkbox\" \n"
    ++ "name=\"question_" ++ toString q.id ++ "\" value=\"" ++ o ++ "\" id=\"q"
    ++ toString q.id ++ "_opt" ++ toString i ++ "\">\n"
    ++ "<label class=\"form-check-label\" for=\"q" ++ toString q.id ++ "_opt"
    ++ toString i ++ "\">\n" ++ o ++ "\n</label>\n</div>\n"

/-- `Question._render_checkbox`. -/
def Question.render_checkbox (q : Question) : String :=
  String.join ((Question.get_choices_list q).enum.map
    (fun p => Question.checkbox_option q p.1 p.2))

/-- Python `dict.get(key, default)` on the association-list model of a JSON
dict. -/
def dictGet (m : List (String × String)) (k dflt : String) : String :=
  match m.find? (fun p => p.1 == k) with
  | some p => p.2
  | Option.none => dflt

/-- One iteration of the `_render_rating` loop (rating value `i`, counted
from 1). -/
def Question.rating_option (q : Question) (i : Nat) : String :=
  let required := if q.is_required then "required" else ""
  let label := dictGet q.rating_labels (toString i) (toString i)
  "\n<div class=\"form-check form-check-inline\">\n<input class=\"form-check-input\" type=\"radio\" \n"
    ++ "name=\"question_" ++ toString q.id ++ "\" value=\"" ++ toString i ++ "\" id=\"q"
    ++ toString q.id ++ "_rate" ++ toString i ++ "\" " ++ required ++ ">\n"
    ++ "<label class=\"form-check-label\" for=\"q" ++ toString q.id ++ "_rate"
    ++ toString i ++ "\">\n" ++ label ++ "\n</label>\n</div>\n"

/-- `Question._render_rating`: loop over `range(1, rating_scale + 1)`. -/
def Question.render_rating (q : Question) : String :=
  let core := String.join (((List.range q.rating_scale).map (fun j => j + 1)).map
    (fun i => Question.rating_option q i))
  "<div class=\"rating-scale\">" ++ core
    ++ "</div><small class=\"form-text text-muted\">Scale: 1 (Low) - "
    ++ toString q.rating_scale ++ " (High)</small>"

/-- `Question._render_email_input` (the placeholder falls back through
Python `or` to a default when the field is empty). -/
def Question.render_email_input (q : Question) : String :=
  let required := if q.is_required then "required" else ""
  let ph := if q.placeholder == "" then "email@example.com" else q.placeholder
  "<input type=\"email\" name=\"question_" ++ toString q.id ++ "\" " ++ required
    ++ " placeholder=\"" ++ ph ++ "\" class=\"form-control\">"

/-- `Question._render_phone_input`. -/
def Question.render_phone_input (q : Question) : String :=
  let required := if q.is_required then "required" else ""
  let ph := if q.placeholder == "" then "+60123456789" else q.placeholder
  "<input type=\"tel\" name=\"question_" ++ toString q.id ++ "\" " ++ required
    ++ " placeholder=\"" ++ ph ++ "\" class=\"form-control\">"

/-- `Question._render_date_input`. -/
def Question.render_date_input (q : Question) : String :=
  let required := if q.is_required then "required" else ""
  "<input type=\"date\" name=\"question_" ++ toString q.id ++ "\" " ++ required
    ++ " class=\"form-control\">"

/-- `Question.render_html`: dispatch on `question_type`. The trailing
`else` (text input) is unreachable: the nine members are all covered. -/
def Question.render_html (q : Question) : String :=
  match q.question_type with
  | QuestionType.TEXT => Question.render_text_input q
  | QuestionType.TEXTAREA => Question.render_textarea q
  | QuestionType.SELECT => Question.render_select q
  | QuestionType.RADIO => Question.render_radio q
  | QuestionType.CHECKBOX => Question.render_checkbox q
  | QuestionType.RATING => Question.render_rating q
  | QuestionType.EMAIL => Question.render_email_input q
  | QuestionType.PHONE => Question.render_phone_input q
  | QuestionType.DATE => Question.render_date_input q

/-! ## Remaining model rows -/

/-- The `Template` model row of `form_templates/models.py`. -/
structure Template where
  id : Nat
  title : String
  description : String
  instructions : String
  created_by : Nat
  is_active : Bool
deriving DecidableEq

/-- The `FormStatus` `TextChoices` enumeration of `forms/models.py`. -/
inductive FormStatus where
  | PENDING
  | COMPLETED
deriving DecidableEq

/-- The `Form` model row of `forms/models.py` (`submitted_at` is an
abstract clock value). -/
structure Form where
  id : Nat
  template_id : Nat
  referee_id : Nat
  unique_token : String
  status : FormStatus
  submitted_at : Option Nat
deriving DecidableEq

/-- `Form.save`: when `unique_token` is falsy (the blank default), assign
the token produced by `generate_unique_token` — modelled as the explicit
argument `generated`, since `secrets.token_urlsafe(32)` is a random
draw. -/
def Form.save_assign_token (f : Form) (generated : String) : Form :=
  if f.unique_token == "" then { f with unique_token := generated } else f

/-- `Form.generate_access_url`. -/
def Form.generate_access_url (f : Form) (base_url : String) : String :=
  base_url ++ "/form/" ++ f.unique_token ++ "/"

/-- `Form.mark_completed`: set status `COMPLETED`, stamp `submitted_at`
with the current time, then `save` (which re-runs the token assignment
branch). -/
def Form.mark_completed (f : Form) (now : Nat) (generated : String) : Form :=
  Form.save_assign_token
    { f with status := FormStatus.COMPLETED, submitted_at := some now } generated

/-- The `Response` model row of `responses/models.py` (`form` is a
`OneToOneField`). -/
structure Response where
  id : Nat
  form_id : Nat
deriving DecidableEq

/-- The `Answer` model row of `responses/models.py`: `question_id` is a
plain `IntegerField`, not a foreign key. -/
structure Answer where
  response_id : Nat
  question_id : Nat
  question_type : String
  answer_value : String
deriving DecidableEq

/-! ## Database state -/

/-- The stored rows of the five model tables. -/
structure DB where
  templates : List Template
  questions : List Question
  forms : List Form
  responses : List Response
  answers : List Answer
deriving DecidableEq

/-- The empty database. -/
def DB.init : DB := ⟨[], [], [], [], []⟩

/-- `self.questions` on a template: the questions whose foreign key points
at template `tid`, in stored order. -/
def DB.template_questions (s : DB) (tid : Nat) : List Question :=
  s.questions.filter (fun q => q.template_id == tid)

/-- `Question.objects.filter(template=...).order_by('-order').first().order`:
the maximum `order` among a template's questions, or `Option.none` when it
has none. -/
def DB.last_question_order (s : DB) (tid : Nat) : Option Nat :=
  match (DB.template_questions s tid).map Question.order with
  | [] => Option.none
  | o :: os => some (os.foldl Nat.max o)

/-- `Question.save`: auto-assign `order` (max existing + 1, or 1) when the
stored `order` is falsy (0) and the question is attached to a template. -/
def Question.save_assign_order (s : DB) (q : Question) : Question :=
  if q.order == 0 && !(q.template_id == 0) then
    match DB.last_question_order s q.template_id with
    | some m => { q with order := m + 1 }
    | Option.none => { q with order := 1 }
  else q

/-- The `ORDER BY` relation of `order_by('order')`. -/
instance : IsTotal Question (fun a b => a.order ≤ b.order) :=
  ⟨fun a b => Nat.le_total a.order b.order⟩

instance : IsTrans Question (fun a b => a.order ≤ b.order) :=
  ⟨fun _ _ _ => Nat.le_trans⟩

/-- `Template.get_questions`: the template's questions ordered by the
`order` field (`order_by('order')`, a stable sort of the stored rows). -/
def Template.get_questions (s : DB) (tid : Nat) : List Question :=
  List.insertionSort (fun a b => a.order ≤ b.order) (DB.template_questions s tid)

/-! ## Operations on the database

Each constructor is one state-changing operation performed by the model
methods and views: template creation (`TemplateCreateView`), question
creation (`Template.add_question` / the question formset, both of which end
in `Question.objects.create` and hence `Question.save`), question removal
(`Template.remove_question`), template duplication (`Template.duplicate`),
form assignment (`Form.objects.create`, which runs `Form.save`), a plain
re-save of a form, `Form.mark_completed`, and the submission flow.
Randomly generated tokens, fresh primary keys and the current time enter as
explicit parameters. -/
inductive Action where
  | create_template (t : Template)
  | add_question (tid qid : Nat) (qdata : Question) (order_given : Option Nat)
  | remove_question (tid qid : Nat)
  | duplicate_template (tid : Nat) (new_title : Option String) (new_user : Option Nat)
      (new_tid qbase : Nat)
  | assign_form (fid tid rid : Nat) (generated : String)
  | resave_form (fid : Nat) (generated : String)
  | mark_completed (fid now : Nat) (generated : String)
  | submit_form (fid rid now : Nat) (generated : String) (vals : Nat → String)

/-- `Template.add_question`: when the caller supplies no `order`, assign
max existing + 1 (or 1); then `Question.objects.create` runs
`Question.save`, which re-checks the same falsy-`order` condition. -/
def DB.add_question (s : DB) (tid qid : Nat) (qdata : Question) (order_given : Option Nat) : DB :=
  let o1 := match order_given with
    | some o => o
    | Option.none =>
        match DB.last_question_order s tid with
        | some m => m + 1
        | Option.none => 1
  let q := Question.save_assign_order s { qdata with id := qid, template_id := tid, order := o1 }
  { s with questions := s.questions ++ [q] }

/-- `Template.remove_question`:
`self.questions.filter(id=question_id).delete()`. Answers are unaffected:
`Answer.question_id` is a plain integer column, not a foreign key. -/
def DB.remove_question (s : DB) (tid qid : Nat) : DB :=
  { s with questions := s.questions.filter (fun q => !(q.template_id == tid && q.id == qid)) }

/-- The `question.duplicate(new_template)` loop of `Template.duplicate`:
each original question is copied field-for-field onto the new template
(fresh consecutive ids), and `Question.objects.create` runs
`Question.save` on the copy. -/
def dupQuestionsGo (new_tid : Nat) : DB → Nat → List Question → DB
  | s, _, [] => s
  | s, nid, q :: qs =>
      let nq := Question.save_assign_order s { q with id := nid, template_id := new_tid }
      dupQuestionsGo new_tid { s with questions := s.questions ++ [nq] } (nid + 1) qs

/-- The template row that `Template.duplicate` builds with
`Template.objects.create`: title defaulted through Python falsiness to the
original title suffixed with " (Copy)", creator defaulted through `or`, and
`is_active=False`. -/
def duplicatedTemplate (t : Template) (new_title : Option String) (new_user : Option Nat)
    (new_tid : Nat) : Template :=
  { id := new_tid,
    title := match new_title with
      | some nt => if nt == "" then t.title ++ " (Copy)" else nt
      | Option.none => t.title ++ " (Copy)",
    description := t.description,
    instructions := t.instructions,
    created_by := match new_user with
      | some u => u
      | Option.none => t.created_by,
    is_active := false }

/-- `Template.duplicate`: create the copy template, then duplicate every
question onto it. -/
def DB.duplicate_template (s : DB) (tid : Nat) (new_title : Option String)
    (new_user : Option Nat) (new_tid qbase : Nat) : DB :=
  match s.templates.find? (fun t => t.id == tid) with
  | Option.none => s
  | some t =>
      dupQuestionsGo new_tid
        { s with templates :=
            s.templates ++ [duplicatedTemplate t new_title new_user new_tid] } qbase
        (DB.template_questions s tid)

/-- `Form.objects.create(template=..., referee=...)`: the new row has the
blank token default and `PENDING` status, and `Form.save` assigns the
generated token. -/
def DB.assign_form (s : DB) (fid tid rid : Nat) (generated : String) : DB :=
  let f := Form.save_assign_token
    { id := fid, template_id := tid, referee_id := rid, unique_token := "",
      status := FormStatus.PENDING, submitted_at := Option.none } generated
  { s with forms := s.forms ++ [f] }

/-- A plain `Form.save` on a stored form. -/
def DB.resave_form (s : DB) (fid : Nat) (generated : String) : DB :=
  { s with forms :=
      List.map (fun h => if h.id == fid then Form.save_assign_token h generated else h) s.forms }

/-- `Form.mark_completed` on a stored form. -/
def DB.mark_form_completed (s : DB) (fid now : Nat) (generated : String) : DB :=
  { s with forms :=
      List.map (fun h => if h.id == fid then Form.mark_completed h now generated else h) s.forms }

/-- Modelled from the spec: the public submission flow behind the tokenized
form URL is not among the sources under verification (no view in the
repository creates `Response` or `Answer` rows or calls `mark_completed`).
Per the spec, Forms "transition PENDING→COMPLETED on submission" and
"Responses/Answers [are] created exactly once at submission time", an
Answer's `question_id` referencing a question of the Response's Form's
Template; `vals` gives the submitted value for each question. -/
def DB.submit_form (s : DB) (fid rid now : Nat) (generated : String) (vals : Nat → String) : DB :=
  match s.forms.find? (fun f => f.id == fid) with
  | Option.none => s
  | some f =>
      { s with
        forms :=
          List.map (fun h => if h.id == fid then Form.mark_completed h now generated else h)
            s.forms,
        responses := s.responses ++ [{ id := rid, form_id := fid }],
        answers := s.answers ++
          List.map
            (fun q => { response_id := rid, question_id := q.id,
                        question_type := QuestionType.value q.question_type,
                        answer_value := vals q.id })
            (Template.get_questions s f.template_id) }

/-- The effect of one operation on the database. -/
def DB.apply (s : DB) : Action → DB
  | Action.create_template t => { s with templates := s.templates ++ [t] }
  | Action.add_question tid qid qdata og => DB.add_question s tid qid qdata og
  | Action.remove_question tid qid => DB.remove_question s tid qid
  | Action.duplicate_template tid ntitle nuser ntid qbase =>
      DB.duplicate_template s tid ntitle nuser ntid qbase
  | Action.assign_form fid tid rid gen => DB.assign_form s fid tid rid gen
  | Action.resave_form fid gen => DB.resave_form s fid gen
  | Action.mark_completed fid now gen => DB.mark_form_completed s fid now gen
  | Action.submit_form fid rid now gen vals => DB.submit_form s fid rid now gen vals

/-- Preconditions of an operation: primary keys are fresh and non-zero
(auto-increment), foreign keys point at existing rows, a generated token is
non-blank (`secrets.token_urlsafe(32)` returns 43 characters) and respects
the `unique=True` column constraint (a colliding save raises
`IntegrityError` and stores nothing), the `OneToOneField` of `Response`
admits one response per form, and submission happens on a pending form. -/
def DB.allowed (s : DB) : Action → Bool
  | Action.create_template t =>
      !(t.id == 0) && s.templates.all (fun t2 => !(t2.id == t.id))
  | Action.add_question tid qid _ _ =>
      !(tid == 0) && !(qid == 0) && s.templates.any (fun t => t.id == tid)
        && s.questions.all (fun q => !(q.id == qid))
  | Action.remove_question _ _ => true
  | Action.duplicate_template tid _ _ new_tid qbase =>
      !(new_tid == 0) && !(qbase == 0)
        && s.templates.all (fun t => !(t.id == new_tid))
        && s.questions.all (fun q => !(q.template_id == new_tid) && q.id < qbase)
        && s.templates.any (fun t => t.id == tid)
  | Action.assign_form fid tid _ gen =>
      !(fid == 0) && s.forms.all (fun f => !(f.id == fid))
        && !(gen == "") && s.forms.all (fun f => !(f.unique_token == gen))
        && s.templates.any (fun t => t.id == tid)
  | Action.resave_form fid gen =>
      !(gen == "") && s.forms.all (fun f => f.id == fid || !(f.unique_token == gen))
  | Action.mark_completed fid _ gen =>
      !(gen == "") && s.forms.all (fun f => f.id == fid || !(f.unique_token == gen))
  | Action.submit_form fid rid _ gen _ =>
      !(gen == "") && s.forms.all (fun f => f.id == fid || !(f.unique_token == gen))
        && !(rid == 0) && s.responses.all (fun r => !(r.id == rid))
        && s.responses.all (fun r => !(r.form_id == fid))
        && (match s.forms.find? (fun f => f.id == fid) with
            | some f => f.status == FormStatus.PENDING
            | Option.none => false)

/-- The database states reachable from the empty database by allowed
operations. -/
inductive Reachable : DB → Prop
  | init : Reachable DB.init
  | step (s : DB) (a : Action) (hr : Reachable s) (hg : DB.allowed s a = true) :
      Reachable (DB.apply s a)

/-! ## responses/models.py: Answer lookups -/

/-- The `self.response.form.template` attribute chain of `Answer`: resolve
the response row, its form row, then its template row. An `Except.error`
models the `RelatedObjectDoesNotExist` raised at the first dangling link,
with Django's message text as payload. -/
def DB.answer_template (s : DB) (a : Answer) : Except String Template :=
  match s.responses.find? (fun r => r.id == a.response_id) with
  | Option.none => Except.error "Answer has no response."
  | some r =>
      match s.forms.find? (fun f => f.id == r.form_id) with
      | Option.none => Except.error "Response has no form."
      | some f =>
          match s.templates.find? (fun t => t.id == f.template_id) with
          | Option.none => Except.error "Form has no template."
          | some t => Except.ok t

/-- `Answer.get_question_text`: scan the template's questions for a
matching id; fall back to a placeholder both when no question matches and
when the lookup chain raises (the bare `except`). -/
def Answer.get_question_text (s : DB) (a : Answer) : String :=
  match DB.answer_template s a with
  | Except.error _ => "Question " ++ toString a.question_id
  | Except.ok t =>
      match (Template.get_questions s t.id).find? (fun q => q.id == a.question_id) with
      | some q => q.question_text
      | Option.none => "Question " ++ toString a.question_id

/-- `Answer.validate`: validate `answer_value` against the matching
question; report "Question not found" when no question of the template
matches; `except Exception as e` turns any raised exception into
`(False, str(e))`. -/
def Answer.validate (s : DB) (a : Answer) : Bool × String :=
  match DB.answer_template s a with
  | Except.error e => (false, e)
  | Except.ok t =>
      match (Template.get_questions s t.id).find? (fun q => q.id == a.question_id) with
      | some q =>
          match Question.validate_answer q (Ans.str a.answer_value) with
          | Except.ok res => res
          | Except.error e => (false, e)
      | Option.none => (false, "Question not found")

/-! ## Derived notions used by the verified properties -/

/-- The question list produced by duplicating `l` onto template `ntid`
with fresh ids counting up from `nid` (specification of the
`dupQuestionsGo` loop when no copied question has a falsy `order`). -/
def dupRename (ntid : Nat) : Nat → List Question → List Question
  | _, [] => []
  | nid, q :: qs => { q with id := nid, template_id := ntid } :: dupRename ntid (nid + 1) qs

/-- The content fields of a question: everything except its primary key
and its template foreign key. -/
def Question.content (q : Question) :
    String × QuestionType × Bool × Nat × List String × Nat × List (String × String)
      × Option Int × String × String :=
  (q.question_text, q.question_type, q.is_required, q.order, q.choices, q.rating_scale,
    q.rating_labels, q.max_length, q.placeholder, q.help_text)

/-- The eight question types named by the specification's data-model
section (`text/select/radio/checkbox/rating/date/email/phone`). -/
def specEightTypes : List QuestionType :=
  [QuestionType.TEXT, QuestionType.SELECT, QuestionType.RADIO, QuestionType.CHECKBOX,
   QuestionType.RATING, QuestionType.DATE, QuestionType.EMAIL, QuestionType.PHONE]

/-- Token-column invariant maintained by the operations: every stored form
carries a non-blank access token, and both primary keys and tokens are
pairwise distinct (`unique=True`). -/
abbrev FormsInv (s : DB) : Prop :=
  (∀ f ∈ s.forms, f.unique_token ≠ "") ∧
  s.forms.Pairwise (fun f g => f.id ≠ g.id ∧ f.unique_token ≠ g.unique_token)

/-- Response invariant: every stored response points at a stored form in
`COMPLETED` status, and responses have pairwise distinct primary keys and
pairwise distinct form keys (the `OneToOneField`). -/
abbrev RespInv (s : DB) : Prop :=
  (∀ r ∈ s.responses, ∃ f ∈ s.forms, f.id = r.form_id ∧ f.status = FormStatus.COMPLETED) ∧
  s.responses.Pairwise (fun r t => r.id ≠ t.id ∧ r.form_id ≠ t.form_id)

/-- Order invariant: every stored question has a positive `order`. -/
abbrev OrderInv (s : DB) : Prop := ∀ q ∈ s.questions, 1 ≤ q.order

/-- The conjunction of the maintained invariants. -/
abbrev Inv (s : DB) : Prop := FormsInv s ∧ RespInv s ∧ OrderInv s

/-- The consistency property claimed for answers: every stored answer's
`question_id` matches a question of the template of the form of its
response. -/
abbrev AnswersConsistent (s : DB) : Prop :=
  ∀ ans ∈ s.answers, ∃ r ∈ s.responses, r.id = ans.response_id ∧
    ∃ f ∈ s.forms, f.id = r.form_id ∧
      ∃ q ∈ DB.template_questions s f.template_id, q.id = ans.question_id

/-! ## Example fixtures (used by witnesses and counterexamples) -/

/-- A template row as created by HR staff. -/
def exTemplate : Template :=
  { id := 1, title := "Reference Check", description := "Standard reference check",
    instructions := "Please answer honestly", created_by := 1, is_active := true }

/-- Question data as supplied to `Template.add_question` (id, template and
order are assigned by the operation). -/
def exQData : Question :=
  { id := 0, template_id := 0, question_text := "How long have you worked with the applicant?",
    question_type := QuestionType.TEXT, is_required := true, order := 0, choices := [],
    rating_scale := 5, rating_labels := [], max_length := Option.none, placeholder := "",
    help_text := "" }

/-- A required rating question on a 1-5 scale. -/
def exRatingReq : Question :=
  { id := 7, template_id := 1, question_text := "Rate the applicant overall",
    question_type := QuestionType.RATING, is_required := true, order := 2, choices := [],
    rating_scale := 5, rating_labels := [], max_length := Option.none, placeholder := "",
    help_text := "" }

/-- An optional rating question on a 1-5 scale. -/
def exRatingOpt : Question :=
  { exRatingReq with id := 8, is_required := false }

/-- A required single-choice question. -/
def exSelectReq : Question :=
  { id := 9, template_id := 1, question_text := "Would you rehire the applicant?",
    question_type := QuestionType.SELECT, is_required := true, order := 3,
    choices := ["Yes", "No"], rating_scale := 5, rating_labels := [],
    max_length := Option.none, placeholder := "", help_text := "" }

/-- An optional radio question. -/
def exRadioOpt : Question :=
  { exSelectReq with id := 10, question_type := QuestionType.RADIO, is_required := false }

/-- A textarea question (the ninth type, absent from the spec's list). -/
def exTextareaQ : Question :=
  { exQData with
    id := 11, template_id := 1, question_type := QuestionType.TEXTAREA, order := 4 }

/-- Operation trace: create a template, add a question, assign the form
twice, submit the first form. -/
def exS1 : DB := DB.apply DB.init (Action.create_template exTemplate)

/-- State after adding question 1 to template 1. -/
def exS2 : DB := DB.apply exS1 (Action.add_question 1 1 exQData Option.none)

/-- State after assigning form 1 (token "tokenA"). -/
def exS3 : DB := DB.apply exS2 (Action.assign_form 1 1 1 "tokenA")

/-- State after assigning form 2 (token "tokenB"). -/
def exS4 : DB := DB.apply exS3 (Action.assign_form 2 1 2 "tokenB")

/-- State after submitting form 1 (response 10 at time 99). -/
def exS5 : DB :=
  DB.apply exS4 (Action.submit_form 1 10 99 "genC" (fun _ => "Two years"))

/-- State after HR removes question 1 from template 1, with form 1's
response and its answer still stored. -/
def exS6 : DB := DB.apply exS5 (Action.remove_question 1 1)

/-- The form row created by the first assignment. -/
def exForm1 : Form :=
  { id := 1, template_id := 1, referee_id := 1, unique_token := "tokenA",
    status := FormStatus.PENDING, submitted_at := Option.none }

/-- The form row created by the second assignment. -/
def exForm2 : Form :=
  { id := 2, template_id := 1, referee_id := 2, unique_token := "tokenB",
    status := FormStatus.PENDING, submitted_at := Option.none }

/-- Form 1 after submission at time 99. -/
def exForm1Done : Form :=
  { exForm1 with status := FormStatus.COMPLETED, submitted_at := some 99 }

/-- An unsaved form row with the blank token default. -/
def exBlankForm : Form :=
  { id := 3, template_id := 1, referee_id := 1, unique_token := "",
    status := FormStatus.PENDING, submitted_at := Option.none }

/-- The response row created by submitting form 1. -/
def exResp : Response := { id := 10, form_id := 1 }

/-- The answer row created by submitting form 1. -/
def exAnswer : Answer :=
  { response_id := 10, question_id := 1, question_type := "TEXT",
    answer_value := "Two years" }

/-- Question 1 as stored after `add_question` auto-assigned order 1. -/
def exQ1 : Question := { exQData with id := 1, template_id := 1, order := 1 }

/-- Question data attached to template 1 with the unset order default. -/
def exQZero : Question := { exQData with id := 5, template_id := 1 }

/-- An answer row whose `response_id` matches no stored response, so the
`self.response` lookup raises. -/
def exDanglingAnswer : Answer :=
  { response_id := 77, question_id := 1, question_type := "TEXT", answer_value := "Fine" }

/-- A store holding `exDanglingAnswer`. -/
def exDanglingDB : DB :=
  { exS5 with answers := exS5.answers ++ [exDanglingAnswer] }

/-! # Verified properties -/

/-! ## Basic lemmas about single-row operations -/

theorem save_assign_token_of_ne (f : Form) (gen : String) (h : f.unique_token ≠ "") :
    Form.save_assign_token f gen = f := by
  simp [Form.save_assign_token, h]

theorem save_assign_token_of_blank (f : Form) (gen : String) (h : f.unique_token = "") :
    Form.save_assign_token f gen = { f with unique_token := gen } := by
  simp [Form.save_assign_token, h]

theorem save_assign_token_id (f : Form) (gen : String) :
    (Form.save_assign_token f gen).id = f.id := by
  unfold Form.save_assign_token; split <;> rfl

theorem save_assign_token_status (f : Form) (gen : String) :
    (Form.save_assign_token f gen).status = f.status := by
  unfold Form.save_assign_token; split <;> rfl

theorem save_assign_token_submitted (f : Form) (gen : String) :
    (Form.save_assign_token f gen).submitted_at = f.submitted_at := by
  unfold Form.save_assign_token; split <;> rfl

theorem mark_completed_id (f : Form) (now : Nat) (gen : String) :
    (Form.mark_completed f now gen).id = f.id := by
  unfold Form.mark_completed; rw [save_assign_token_id]

theorem mark_completed_status (f : Form) (now : Nat) (gen : String) :
    (Form.mark_completed f now gen).status = FormStatus.COMPLETED := by
  unfold Form.mark_completed; rw [save_assign_token_status]

theorem mark_completed_submitted (f : Form) (now : Nat) (gen : String) :
    (Form.mark_completed f now gen).submitted_at = some now := by
  unfold Form.mark_completed; rw [save_assign_token_submitted]

theorem mark_completed_token (f : Form) (now : Nat) (gen : String)
    (h : f.unique_token ≠ "") :
    (Form.mark_completed f now gen).unique_token = f.unique_token := by
  unfold Form.mark_completed
  have h2 : ({ f with status := FormStatus.COMPLETED, submitted_at := some now }
      : Form).unique_token ≠ "" := h
  rw [save_assign_token_of_ne _ gen h2]

theorem save_assign_order_of_order_ne (s : DB) (q : Question) (h : q.order ≠ 0) :
    Question.save_assign_order s q = q := by
  simp [Question.save_assign_order, h]

theorem save_assign_order_pos (s : DB) (q : Question) (ht : q.template_id ≠ 0) :
    1 ≤ (Question.save_assign_order s q).order := by
  by_cases h : q.order = 0
  · unfold Question.save_assign_order
    simp only [h, ht]
    simp only [beq_self_eq_true, Bool.true_and]
    have hb : (q.template_id == 0) = false := by simp [ht]
    simp only [hb, Bool.not_false, if_true]
    cases hl : DB.last_question_order s q.template_id <;> simp [hl]
  · rw [save_assign_order_of_order_ne s q h]; omega

/-! ## Lemmas about the duplication loop -/

theorem dupGo_templates (ntid : Nat) (l : List Question) (s : DB) (nid : Nat) :
    (dupQuestionsGo ntid s nid l).templates = s.templates := by
  induction l generalizing s nid with
  | nil => rfl
  | cons q qs ih => simp [dupQuestionsGo, ih]

theorem dupGo_forms (ntid : Nat) (l : List Question) (s : DB) (nid : Nat) :
    (dupQuestionsGo ntid s nid l).forms = s.forms := by
  induction l generalizing s nid with
  | nil => rfl
  | cons q qs ih => simp [dupQuestionsGo, ih]

theorem dupGo_responses (ntid : Nat) (l : List Question) (s : DB) (nid : Nat) :
    (dupQuestionsGo ntid s nid l).responses = s.responses := by
  induction l generalizing s nid with
  | nil => rfl
  | cons q qs ih => simp [dupQuestionsGo, ih]

theorem dupGo_answers (ntid : Nat) (l : List Question) (s : DB) (nid : Nat) :
    (dupQuestionsGo ntid s nid l).answers = s.answers := by
  induction l generalizing s nid with
  | nil => rfl
  | cons q qs ih => simp [dupQuestionsGo, ih]

theorem dupGo_questions (ntid : Nat) (l : List Question) (s : DB) (nid : Nat)
    (h : ∀ q ∈ l, q.order ≠ 0) :
    (dupQuestionsGo ntid s nid l).questions = s.questions ++ dupRename ntid nid l := by
  induction l generalizing s nid with
  | nil => simp [dupQuestionsGo, dupRename]
  | cons q qs ih =>
      have hq : q.order ≠ 0 := h q (List.mem_cons_self q qs)
      have hcopy : Question.save_assign_order s { q with id := nid, template_id := ntid }
          = { q with id := nid, template_id := ntid } :=
        save_assign_order_of_order_ne _ _ hq
      simp only [dupQuestionsGo, hcopy, dupRename]
      rw [ih _ _ (fun p hp => h p (List.mem_cons_of_mem q hp))]
      simp

theorem mem_dupRename (ntid : Nat) (l : List Question) (nid : Nat) (x : Question)
    (hx : x ∈ dupRename ntid nid l) :
    ∃ q ∈ l, ∃ k, x = { q with id := k, template_id := ntid } := by
  induction l generalizing nid with
  | nil => simp [dupRename] at hx
  | cons q qs ih =>
      simp only [dupRename, List.mem_cons] at hx
      cases hx with
      | inl h => exact ⟨q, List.mem_cons_self q qs, nid, h⟩
      | inr h =>
          obtain ⟨p, hp, k, hk⟩ := ih (nid + 1) h
          exact ⟨p, List.mem_cons_of_mem q hp, k, hk⟩

theorem dupRename_content (ntid : Nat) (l : List Question) (nid : Nat) :
    (dupRename ntid nid l).map Question.content = l.map Question.content := by
  induction l generalizing nid with
  | nil => rfl
  | cons q qs ih => simp [dupRename, Question.content, ih]

theorem dupRename_template_id (ntid : Nat) (l : List Question) (nid : Nat) (x : Question)
    (hx : x ∈ dupRename ntid nid l) : x.template_id = ntid := by
  obtain ⟨q, _, k, hk⟩ := mem_dupRename ntid l nid x hx
  rw [hk]

/-! ## Lemmas about the running maximum -/

theorem foldl_max_le_init (o : Nat) (os : List Nat) : o ≤ os.foldl Nat.max o := by
  induction os generalizing o with
  | nil => exact Nat.le_refl o
  | cons a as ih =>
      calc o ≤ Nat.max o a := Nat.le_max_left o a
      _ ≤ as.foldl Nat.max (Nat.max o a) := ih (Nat.max o a)

theorem foldl_max_le_mem (o x : Nat) (os : List Nat) (hx : x ∈ os) :
    x ≤ os.foldl Nat.max o := by
  induction os generalizing o with
  | nil => simp at hx
  | cons a as ih =>
      rcases List.mem_cons.mp hx with h | h
      · subst h
        calc x ≤ Nat.max o x := Nat.le_max_right o x
        _ ≤ as.foldl Nat.max (Nat.max o x) := foldl_max_le_init _ _
      · exact ih (Nat.max o a) h

theorem nat_max_choice (a b : Nat) : Nat.max a b = a ∨ Nat.max a b = b := by
  rw [Nat.max_eq_max]
  by_cases h : a ≤ b
  · exact Or.inr (Nat.max_eq_right h)
  · exact Or.inl (Nat.max_eq_left (Nat.le_of_not_le h))

theorem foldl_max_mem (o : Nat) (os : List Nat) :
    os.foldl Nat.max o = o ∨ os.foldl Nat.max o ∈ os := by
  induction os generalizing o with
  | nil => exact Or.inl rfl
  | cons a as ih =>
      rcases ih (Nat.max o a) with h | h
      · rcases nat_max_choice o a with hm | hm
        · exact Or.inl (by rw [List.foldl_cons, h, hm])
        · exact Or.inr (by rw [List.foldl_cons, h, hm]; exact List.mem_cons_self a as)
      · exact Or.inr (List.mem_cons_of_mem a h)

/-! ## The maintained invariant -/

theorem pairwise_forms_map (l : List Form) (φ : Form → Form)
    (hid : ∀ f ∈ l, (φ f).id = f.id)
    (htok : ∀ f ∈ l, (φ f).unique_token = f.unique_token)
    (hp : l.Pairwise (fun f g => f.id ≠ g.id ∧ f.unique_token ≠ g.unique_token)) :
    (l.map φ).Pairwise (fun f g => f.id ≠ g.id ∧ f.unique_token ≠ g.unique_token) := by
  rw [List.pairwise_map]
  refine List.Pairwise.imp_of_mem ?_ hp
  intro a b ha hb hab
  rw [hid a ha, hid b hb, htok a ha, htok b hb]
  exact hab

theorem reachable_inv {s : DB} (h : Reachable s) : Inv s := by
  induction h with
  | init =>
      refine ⟨⟨?_, ?_⟩, ⟨?_, ?_⟩, ?_⟩ <;> simp [DB.init, OrderInv]
  | step s a hr hg ih =>
      obtain ⟨⟨ih_tok, ih_pw⟩, ⟨ih_resp, ih_rpw⟩, ih_ord⟩ := ih
      cases a with
      | create_template t =>
          exact ⟨⟨ih_tok, ih_pw⟩, ⟨ih_resp, ih_rpw⟩, ih_ord⟩
      | add_question tid qid qdata og =>
          simp only [DB.allowed, Bool.and_eq_true, List.all_eq_true, List.any_eq_true,
            Bool.not_eq_true', beq_eq_false_iff_ne, beq_iff_eq, ne_eq] at hg
          have htid : ¬tid = 0 := hg.1.1.1
          refine ⟨⟨ih_tok, ih_pw⟩, ⟨ih_resp, ih_rpw⟩, ?_⟩
          intro p hp
          rcases List.mem_append.mp hp with hold | hnew
          · exact ih_ord p hold
          · rw [List.mem_singleton.mp hnew]
            exact save_assign_order_pos _ _ htid
      | remove_question tid qid =>
          refine ⟨⟨ih_tok, ih_pw⟩, ⟨ih_resp, ih_rpw⟩, ?_⟩
          intro p hp
          exact ih_ord p (List.mem_filter.mp hp).1
      | duplicate_template tid ntitle nuser ntid qbase =>
          cases hfind : s.templates.find? (fun t => t.id == tid) with
          | none =>
              have hs : DB.apply s (Action.duplicate_template tid ntitle nuser ntid qbase)
                  = s := by
                simp [DB.apply, DB.duplicate_template, hfind]
              rw [hs]
              exact ⟨⟨ih_tok, ih_pw⟩, ⟨ih_resp, ih_rpw⟩, ih_ord⟩
          | some t =>
              have horder : ∀ q ∈ DB.template_questions s tid, q.order ≠ 0 := by
                intro q hq
                have hmem : q ∈ s.questions := (List.mem_filter.mp hq).1
                have := ih_ord q hmem
                omega
              have hforms : (DB.apply s
                  (Action.duplicate_template tid ntitle nuser ntid qbase)).forms
                  = s.forms := by
                simp [DB.apply, DB.duplicate_template, hfind, dupGo_forms]
              have hresp : (DB.apply s
                  (Action.duplicate_template tid ntitle nuser ntid qbase)).responses
                  = s.responses := by
                simp [DB.apply, DB.duplicate_template, hfind, dupGo_responses]
              have hq : (DB.apply s
                  (Action.duplicate_template tid ntitle nuser ntid qbase)).questions
                  = s.questions ++ dupRename ntid qbase (DB.template_questions s tid) := by
                simp only [DB.apply, DB.duplicate_template, hfind]
                rw [dupGo_questions _ _ _ _ horder]
              refine ⟨⟨?_, ?_⟩, ⟨?_, ?_⟩, ?_⟩
              · rw [hforms]; exact ih_tok
              · rw [hforms]; exact ih_pw
              · rw [hresp, hforms]; exact ih_resp
              · rw [hresp]; exact ih_rpw
              · intro p hp
                rw [hq] at hp
                rcases List.mem_append.mp hp with hold | hnew
                · exact ih_ord p hold
                · obtain ⟨q, hqmem, k, hk⟩ := mem_dupRename _ _ _ _ hnew
                  rw [hk]
                  exact ih_ord q (List.mem_filter.mp hqmem).1
      | assign_form fid tid rid gen =>
          simp only [DB.allowed, Bool.and_eq_true, List.all_eq_true, List.any_eq_true,
            Bool.not_eq_true', beq_eq_false_iff_ne, beq_iff_eq, ne_eq] at hg
          obtain ⟨⟨⟨⟨hfid0, hidfresh⟩, hgen0⟩, htokfresh⟩, htpl⟩ := hg
          refine ⟨⟨?_, ?_⟩, ⟨?_, ?_⟩, ?_⟩
          · intro f hf
            rcases List.mem_append.mp hf with hold | hnew
            · exact ih_tok f hold
            · rw [List.mem_singleton.mp hnew]
              exact hgen0
          · refine List.pairwise_append.mpr ⟨ih_pw, by simp, ?_⟩
            intro f hf b hb
            rw [List.mem_singleton.mp hb]
            exact ⟨hidfresh f hf, htokfresh f hf⟩
          · intro r hr2
            obtain ⟨f, hf, hfr, hst⟩ := ih_resp r hr2
            exact ⟨f, List.mem_append.mpr (Or.inl hf), hfr, hst⟩
          · exact ih_rpw
          · exact ih_ord
      | resave_form fid gen =>
          have hmap : List.map
              (fun h => if h.id == fid then Form.save_assign_token h gen else h) s.forms
              = s.forms := by
            have h1 : List.map
                (fun h => if h.id == fid then Form.save_assign_token h gen else h) s.forms
                = List.map id s.forms := by
              apply List.map_congr_left
              intro f hf
              by_cases hc : (f.id == fid) = true
              · simp only [hc, if_true, id]
                exact save_assign_token_of_ne f gen (ih_tok f hf)
              · simp only [Bool.not_eq_true] at hc
                simp only [hc]
                rfl
            rw [h1, List.map_id]
          have hs : DB.apply s (Action.resave_form fid gen) = s := by
            simp only [DB.apply, DB.resave_form]
            rw [hmap]
          rw [hs]
          exact ⟨⟨ih_tok, ih_pw⟩, ⟨ih_resp, ih_rpw⟩, ih_ord⟩
      | mark_completed fid now gen =>
          have hφid : ∀ f ∈ s.forms,
              ((fun h => if h.id == fid then Form.mark_completed h now gen else h) f).id
                = f.id := by
            intro f hf
            by_cases hc : (f.id == fid) = true
            · simp only [hc, if_true]
              exact mark_completed_id f now gen
            · simp only [Bool.not_eq_true] at hc
              simp only [hc]
              rfl
          have hφtok : ∀ f ∈ s.forms,
              ((fun h => if h.id == fid then Form.mark_completed h now gen else h)
                f).unique_token = f.unique_token := by
            intro f hf
            by_cases hc : (f.id == fid) = true
            · simp only [hc, if_true]
              exact mark_completed_token f now gen (ih_tok f hf)
            · simp only [Bool.not_eq_true] at hc
              simp only [hc]
              rfl
          refine ⟨⟨?_, ?_⟩, ⟨?_, ?_⟩, ?_⟩
          · intro x hx
            obtain ⟨f, hf, rfl⟩ := List.mem_map.mp hx
            rw [hφtok f hf]
            exact ih_tok f hf
          · exact pairwise_forms_map s.forms _ hφid hφtok ih_pw
          · intro r hr2
            obtain ⟨f, hf, hfr, hst⟩ := ih_resp r hr2
            refine ⟨(fun h => if h.id == fid then Form.mark_completed h now gen else h) f,
              List.mem_map_of_mem _ hf, ?_, ?_⟩
            · rw [hφid f hf]; exact hfr
            · by_cases hc : (f.id == fid) = true
              · simp only [hc, if_true]
                exact mark_completed_status f now gen
              · simp only [Bool.not_eq_true] at hc
                simp only [hc]
                exact hst
          · exact ih_rpw
          · exact ih_ord
      | submit_form fid rid now gen vals =>
          cases hfind : s.forms.find? (fun f => f.id == fid) with
          | none =>
              exfalso
              simp [DB.allowed, hfind] at hg
          | some f0 =>
              simp only [DB.allowed, hfind, Bool.and_eq_true, List.all_eq_true,
                List.any_eq_true, Bool.not_eq_true', beq_eq_false_iff_ne, beq_iff_eq,
                ne_eq] at hg
              obtain ⟨⟨⟨⟨⟨hgen0, htokfresh⟩, hrid0⟩, hridfresh⟩, hformfresh⟩, hpend⟩ := hg
              have hf0mem : f0 ∈ s.forms := List.mem_of_find?_eq_some hfind
              have hf0id : f0.id = fid := by
                have := List.find?_some hfind
                simpa using this
              have hφid : ∀ f ∈ s.forms,
                  ((fun h => if h.id == fid then Form.mark_completed h now gen else h) f).id
                    = f.id := by
                intro f hf
                by_cases hc : (f.id == fid) = true
                · simp only [hc, if_true]
                  exact mark_completed_id f now gen
                · simp only [Bool.not_eq_true] at hc
                  simp only [hc]
                  rfl
              have hφtok : ∀ f ∈ s.forms,
                  ((fun h => if h.id == fid then Form.mark_completed h now gen else h)
                    f).unique_token = f.unique_token := by
                intro f hf
                by_cases hc : (f.id == fid) = true
                · simp only [hc, if_true]
                  exact mark_completed_token f now gen (ih_tok f hf)
                · simp only [Bool.not_eq_true] at hc
                  simp only [hc]
                  rfl
              have happly : DB.apply s (Action.submit_form fid rid now gen vals) =
                  { s with
                    forms := List.map
                      (fun h => if h.id == fid then Form.mark_completed h now gen else h)
                      s.forms,
                    responses := s.responses ++ [{ id := rid, form_id := fid }],
                    answers := s.answers ++
                      List.map
                        (fun q => { response_id := rid, question_id := q.id,
                                    question_type := QuestionType.value q.question_type,
                                    answer_value := vals q.id })
                        (Template.get_questions s f0.template_id) } := by
                simp [DB.apply, DB.submit_form, hfind]
              rw [happly]
              refine ⟨⟨?_, ?_⟩, ⟨?_, ?_⟩, ?_⟩
              · intro x hx
                obtain ⟨f, hf, rfl⟩ := List.mem_map.mp hx
                rw [hφtok f hf]
                exact ih_tok f hf
              · exact pairwise_forms_map s.forms _ hφid hφtok ih_pw
              · intro r hr2
                rcases List.mem_append.mp hr2 with hold | hnew
                · obtain ⟨f, hf, hfr, hst⟩ := ih_resp r hold
                  refine ⟨(fun h => if h.id == fid then Form.mark_completed h now gen else h)
                      f, List.mem_map_of_mem _ hf, ?_, ?_⟩
                  · rw [hφid f hf]; exact hfr
                  · by_cases hc : (f.id == fid) = true
                    · simp only [hc, if_true]
                      exact mark_completed_status f now gen
                    · simp only [Bool.not_eq_true] at hc
                      simp only [hc]
                      exact hst
                · rw [List.mem_singleton.mp hnew]
                  refine ⟨(fun h => if h.id == fid then Form.mark_completed h now gen else h)
                      f0, List.mem_map_of_mem _ hf0mem, ?_, ?_⟩
                  · rw [hφid f0 hf0mem]
                    exact hf0id
                  · have hc : (f0.id == fid) = true := by simp [hf0id]
                    simp only [hc, if_true]
                    exact mark_completed_status f0 now gen
              · refine List.pairwise_append.mpr ⟨ih_rpw, by simp, ?_⟩
                intro r hrm b hb
                rw [List.mem_singleton.mp hb]
                exact ⟨hridfresh r hrm, hformfresh r hrm⟩
              · exact ih_ord

/-! ## Consequences of the invariant -/

theorem reachable_forms_ne {s : DB} (h : Reachable s) {f g : Form} (hf : f ∈ s.forms)
    (hg2 : g ∈ s.forms) (hne : f ≠ g) :
    f.id ≠ g.id ∧ f.unique_token ≠ g.unique_token := by
  have hpw := (reachable_inv h).1.2
  have hsym : Symmetric
      (fun f g : Form => f.id ≠ g.id ∧ f.unique_token ≠ g.unique_token) := by
    intro a b hab
    exact ⟨fun e => hab.1 e.symm, fun e => hab.2 e.symm⟩
  exact List.Pairwise.forall hsym hpw hf hg2 hne

theorem forms_id_inj {s : DB} (h : Reachable s) {f g : Form} (hf : f ∈ s.forms)
    (hg2 : g ∈ s.forms) (hid : f.id = g.id) : f = g := by
  by_contra hne
  exact (reachable_forms_ne h hf hg2 hne).1 hid

theorem reachable_resp_ne {s : DB} (h : Reachable s) {r t : Response}
    (hr2 : r ∈ s.responses) (ht : t ∈ s.responses) (hne : r ≠ t) :
    r.id ≠ t.id ∧ r.form_id ≠ t.form_id := by
  have hpw := (reachable_inv h).2.1.2
  have hsym : Symmetric (fun r t : Response => r.id ≠ t.id ∧ r.form_id ≠ t.form_id) := by
    intro a b hab
    exact ⟨fun e => hab.1 e.symm, fun e => hab.2 e.symm⟩
  exact List.Pairwise.forall hsym hpw hr2 ht hne

/-- Where each form of the post-state comes from: either it tracks a stored
form of the pre-state — same id, same token, and either wholly unchanged or
completed by a `mark_completed`-running action — or it is the fresh
`PENDING` form created by `assign_form`. -/
theorem apply_form_tracking {s : DB} (a : Action) (hr : Reachable s)
    (ha : DB.allowed s a = true) (g : Form) (hgm : g ∈ (DB.apply s a).forms) :
    (∃ f ∈ s.forms, f.id = g.id ∧ g.unique_token = f.unique_token ∧
      (g = f ∨ (g.status = FormStatus.COMPLETED ∧ ∃ now gen, g.submitted_at = some now ∧
        (a = Action.mark_completed f.id now gen ∨
          ∃ rid vals, a = Action.submit_form f.id rid now gen vals)))) ∨
    (g.status = FormStatus.PENDING ∧ (∀ f ∈ s.forms, f.id ≠ g.id) ∧
      ∃ tid rid, a = Action.assign_form g.id tid rid g.unique_token) := by
  obtain ⟨⟨ih_tok, ih_pw⟩, _, _⟩ := reachable_inv hr
  cases a with
  | create_template t =>
      exact Or.inl ⟨g, hgm, rfl, rfl, Or.inl rfl⟩
  | add_question tid qid qdata og =>
      exact Or.inl ⟨g, hgm, rfl, rfl, Or.inl rfl⟩
  | remove_question tid qid =>
      exact Or.inl ⟨g, hgm, rfl, rfl, Or.inl rfl⟩
  | duplicate_template tid ntitle nuser ntid qbase =>
      cases hfind : s.templates.find? (fun t => t.id == tid) with
      | none =>
          have hforms : (DB.apply s
              (Action.duplicate_template tid ntitle nuser ntid qbase)).forms = s.forms := by
            simp [DB.apply, DB.duplicate_template, hfind]
          rw [hforms] at hgm
          exact Or.inl ⟨g, hgm, rfl, rfl, Or.inl rfl⟩
      | some t =>
          have hforms : (DB.apply s
              (Action.duplicate_template tid ntitle nuser ntid qbase)).forms = s.forms := by
            simp [DB.apply, DB.duplicate_template, hfind, dupGo_forms]
          rw [hforms] at hgm
          exact Or.inl ⟨g, hgm, rfl, rfl, Or.inl rfl⟩
  | assign_form fid tid rid gen =>
      simp only [DB.allowed, Bool.and_eq_true, List.all_eq_true, List.any_eq_true,
        Bool.not_eq_true', beq_eq_false_iff_ne, beq_iff_eq, ne_eq] at ha
      obtain ⟨⟨⟨⟨hfid0, hidfresh⟩, hgen0⟩, htokfresh⟩, htpl⟩ := ha
      rcases List.mem_append.mp hgm with hold | hnew
      · exact Or.inl ⟨g, hold, rfl, rfl, Or.inl rfl⟩
      · have hgeq := List.mem_singleton.mp hnew
        subst hgeq
        refine Or.inr ⟨rfl, ?_, tid, rid, rfl⟩
        intro p hp
        exact hidfresh p hp
  | resave_form fid gen =>
      have hmap : List.map
          (fun h => if h.id == fid then Form.save_assign_token h gen else h) s.forms
          = s.forms := by
        have h1 : List.map
            (fun h => if h.id == fid then Form.save_assign_token h gen else h) s.forms
            = List.map id s.forms := by
          apply List.map_congr_left
          intro p hp
          by_cases hc : (p.id == fid) = true
          · simp only [hc, if_true, id]
            exact save_assign_token_of_ne p gen (ih_tok p hp)
          · simp only [Bool.not_eq_true] at hc
            simp only [hc]
            rfl
        rw [h1, List.map_id]
      have hforms : (DB.apply s (Action.resave_form fid gen)).forms = s.forms := by
        simp only [DB.apply, DB.resave_form]
        exact hmap
      rw [hforms] at hgm
      exact Or.inl ⟨g, hgm, rfl, rfl, Or.inl rfl⟩
  | mark_completed fid now gen =>
      obtain ⟨p, hp, rfl⟩ := List.mem_map.mp hgm
      by_cases hc : (p.id == fid) = true
      · rw [if_pos hc]
        refine Or.inl ⟨p, hp, (mark_completed_id p now gen).symm, ?_, Or.inr ⟨?_, now, gen, ?_, ?_⟩⟩
        · exact mark_completed_token p now gen (ih_tok p hp)
        · exact mark_completed_status p now gen
        · exact mark_completed_submitted p now gen
        · rw [beq_iff_eq.mp hc]
          exact Or.inl rfl
      · rw [if_neg hc]
        exact Or.inl ⟨p, hp, rfl, rfl, Or.inl rfl⟩
  | submit_form fid rid now gen vals =>
      cases hfind : s.forms.find? (fun f => f.id == fid) with
      | none =>
          exfalso
          simp [DB.allowed, hfind] at ha
      | some f0 =>
          have hforms : (DB.apply s (Action.submit_form fid rid now gen vals)).forms =
              List.map (fun h => if h.id == fid then Form.mark_completed h now gen else h)
                s.forms := by
            simp [DB.apply, DB.submit_form, hfind]
          rw [hforms] at hgm
          obtain ⟨p, hp, rfl⟩ := List.mem_map.mp hgm
          by_cases hc : (p.id == fid) = true
          · rw [if_pos hc]
            refine Or.inl ⟨p, hp, (mark_completed_id p now gen).symm, ?_,
              Or.inr ⟨?_, now, gen, ?_, ?_⟩⟩
            · exact mark_completed_token p now gen (ih_tok p hp)
            · exact mark_completed_status p now gen
            · exact mark_completed_submitted p now gen
            · rw [beq_iff_eq.mp hc]
              exact Or.inr ⟨rid, vals, rfl⟩
          · rw [if_neg hc]
            exact Or.inl ⟨p, hp, rfl, rfl, Or.inl rfl⟩

/-! ## Reachability of the example trace -/

theorem exS1_reachable : Reachable exS1 :=
  Reachable.step DB.init (Action.create_template exTemplate) Reachable.init (by decide)

theorem exS2_reachable : Reachable exS2 :=
  Reachable.step exS1 (Action.add_question 1 1 exQData Option.none) exS1_reachable
    (by decide)

theorem exS3_reachable : Reachable exS3 :=
  Reachable.step exS2 (Action.assign_form 1 1 1 "tokenA") exS2_reachable (by decide)

theorem exS4_reachable : Reachable exS4 :=
  Reachable.step exS3 (Action.assign_form 2 1 2 "tokenB") exS3_reachable (by decide)

theorem exS5_reachable : Reachable exS5 :=
  Reachable.step exS4 (Action.submit_form 1 10 99 "genC" (fun _ => "Two years"))
    exS4_reachable (by decide)

theorem exS6_reachable : Reachable exS6 :=
  Reachable.step exS5 (Action.remove_question 1 1) exS5_reachable (by decide)

/-! ## Claim C1 -/

/-- C1: in every reachable store, stored forms carry non-blank pairwise
distinct access tokens (two distinct forms never share a token);
`Form.save` assigns the freshly generated token exactly when
`unique_token` is blank and otherwise leaves the form unchanged; and no
allowed operation (including `mark_completed` and repeated saves) changes
the token of a form that already has one. -/
theorem C1_token_unique_immutable (s : DB) (a : Action) (f g : Form) (gen : String)
    (hr : Reachable s) :
    (f ∈ s.forms → g ∈ s.forms → f ≠ g →
      f.unique_token ≠ "" ∧ f.unique_token ≠ g.unique_token) ∧
    (f.unique_token = "" → (Form.save_assign_token f gen).unique_token = gen) ∧
    (f.unique_token ≠ "" → Form.save_assign_token f gen = f) ∧
    (DB.allowed s a = true → f ∈ s.forms → g ∈ (DB.apply s a).forms → g.id = f.id →
      g.unique_token = f.unique_token) := by
  refine ⟨?_, ?_, ?_, ?_⟩
  · intro hf hg2 hne
    exact ⟨(reachable_inv hr).1.1 f hf, (reachable_forms_ne hr hf hg2 hne).2⟩
  · intro hb
    rw [save_assign_token_of_blank f gen hb]
  · intro hnb
    exact save_assign_token_of_ne f gen hnb
  · intro ha hf hgm hid
    rcases apply_form_tracking a hr ha g hgm with ⟨f2, hf2, hid2, htok2, _⟩ | ⟨_, hfresh, _⟩
    · have hf2f : f2 = f := forms_id_inj hr hf2 hf (hid2.trans hid)
      rw [htok2, hf2f]
    · exact absurd hid.symm (hfresh f hf)

/-- Witness for C1 on the example trace: the two assigned forms have
non-blank distinct tokens, a blank form is assigned the generated token, a
saved form is left unchanged by a re-save, and submitting form 1 leaves its
token intact. -/
theorem C1_witness :
    exForm1.unique_token ≠ "" ∧
    exForm1.unique_token ≠ exForm2.unique_token ∧
    (Form.save_assign_token exBlankForm "freshTok").unique_token = "freshTok" ∧
    Form.save_assign_token exForm1 "freshTok" = exForm1 ∧
    exForm1Done.unique_token = exForm1.unique_token := by
  have h1 := C1_token_unique_immutable exS4
    (Action.submit_form 1 10 99 "genC" (fun _ => "Two years")) exForm1 exForm2 "freshTok"
    exS4_reachable
  have h2 := C1_token_unique_immutable exS4
    (Action.submit_form 1 10 99 "genC" (fun _ => "Two years")) exBlankForm exForm1Done
    "freshTok" exS4_reachable
  have h3 := C1_token_unique_immutable exS4
    (Action.submit_form 1 10 99 "genC" (fun _ => "Two years")) exForm1 exForm1Done
    "freshTok" exS4_reachable
  refine ⟨(h1.1 (by decide) (by decide) (by decide)).1,
    (h1.1 (by decide) (by decide) (by decide)).2,
    h2.2.1 (by decide),
    h3.2.2.1 (by decide),
    h3.2.2.2 (by decide) (by decide) (by decide) (by decide)⟩

/-! ## Claim C2 -/

/-- C2: a form created by an allowed operation starts in `PENDING`; when a
stored form's status changes across an allowed operation, the change is
`PENDING` to `COMPLETED`, performed by `mark_completed` (directly or inside
the submission flow), which also stamps `submitted_at` with the current
time; and a `COMPLETED` form never returns to `PENDING`. -/
theorem C2_status_lifecycle (s : DB) (a : Action) (f g : Form)
    (hr : Reachable s) (ha : DB.allowed s a = true) :
    (g ∈ (DB.apply s a).forms → (∀ p ∈ s.forms, p.id ≠ g.id) →
      g.status = FormStatus.PENDING) ∧
    (f ∈ s.forms → g ∈ (DB.apply s a).forms → g.id = f.id → g.status ≠ f.status →
      f.status = FormStatus.PENDING ∧ g.status = FormStatus.COMPLETED ∧
      ∃ now gen, g.submitted_at = some now ∧
        (a = Action.mark_completed f.id now gen ∨
         ∃ rid vals, a = Action.submit_form f.id rid now gen vals)) ∧
    (f ∈ s.forms → g ∈ (DB.apply s a).forms → g.id = f.id →
      f.status = FormStatus.COMPLETED → g.status = FormStatus.COMPLETED) := by
  refine ⟨?_, ?_, ?_⟩
  · intro hgm hfresh
    rcases apply_form_tracking a hr ha g hgm with ⟨f2, hf2, hid2, _, _⟩ | ⟨hpend, _, _⟩
    · exact absurd hid2 (hfresh f2 hf2)
    · exact hpend
  · intro hf hgm hid hst
    rcases apply_form_tracking a hr ha g hgm with
      ⟨f2, hf2, hid2, htok2, hcase⟩ | ⟨_, hfresh, _⟩
    · have hf2f : f2 = f := forms_id_inj hr hf2 hf (hid2.trans hid)
      subst hf2f
      rcases hcase with rfl | ⟨hcomp, now, gen, hsub, hact⟩
      · exact absurd rfl hst
      · refine ⟨?_, hcomp, now, gen, hsub, hact⟩
        cases hfs : f2.status with
        | PENDING => rfl
        | COMPLETED => exact absurd (hcomp.trans hfs.symm) hst
    · exact absurd hid.symm (hfresh f hf)
  · intro hf hgm hid hfc
    rcases apply_form_tracking a hr ha g hgm with
      ⟨f2, hf2, hid2, htok2, hcase⟩ | ⟨_, hfresh, _⟩
    · have hf2f : f2 = f := forms_id_inj hr hf2 hf (hid2.trans hid)
      subst hf2f
      rcases hcase with rfl | ⟨hcomp, _⟩
      · exact hfc
      · exact hcomp
    · exact absurd hid.symm (hfresh f hf)

/-- Witness for C2 on the example trace: the freshly assigned form 2 is
`PENDING`, and submitting form 1 moves it `PENDING` to `COMPLETED` through
the `mark_completed`-running submission, stamping `submitted_at`. -/
theorem C2_witness :
    exForm2.status = FormStatus.PENDING ∧
    exForm1.status = FormStatus.PENDING ∧ exForm1Done.status = FormStatus.COMPLETED ∧
    ∃ now gen, exForm1Done.submitted_at = some now ∧
      (Action.submit_form 1 10 99 "genC" (fun _ => "Two years")
          = Action.mark_completed exForm1.id now gen ∨
       ∃ rid vals, Action.submit_form 1 10 99 "genC" (fun _ => "Two years")
          = Action.submit_form exForm1.id rid now gen vals) := by
  have hnew := (C2_status_lifecycle exS3 (Action.assign_form 2 1 2 "tokenB") exForm1
    exForm2 exS3_reachable (by decide)).1 (by decide) (by decide)
  have hchg := (C2_status_lifecycle exS4
    (Action.submit_form 1 10 99 "genC" (fun _ => "Two years")) exForm1 exForm1Done
    exS4_reachable (by decide)).2.1 (by decide) (by decide) (by decide) (by decide)
  exact ⟨hnew, hchg.1, hchg.2.1, hchg.2.2⟩

/-! ## Claim C7 -/

/-- C7: in every reachable store, each response's form is stored and has
status `COMPLETED` (a response exists only for a submitted form), and no
other response shares its form (one response per form). -/
theorem C7_response_only_for_submitted (s : DB) (r : Response) (hr : Reachable s)
    (hm : r ∈ s.responses) :
    (∃ f ∈ s.forms, f.id = r.form_id ∧ f.status = FormStatus.COMPLETED) ∧
    ∀ r2 ∈ s.responses, r2 ≠ r → r2.form_id ≠ r.form_id := by
  refine ⟨(reachable_inv hr).2.1.1 r hm, ?_⟩
  intro r2 hm2 hne
  exact (reachable_resp_ne hr hm2 hm hne).2

/-- Witness for C7: the response created by submitting form 1 points at a
stored `COMPLETED` form and is the only response for it. -/
theorem C7_witness :
    (∃ f ∈ exS5.forms, f.id = exResp.form_id ∧ f.status = FormStatus.COMPLETED) ∧
    ∀ r2 ∈ exS5.responses, r2 ≠ exResp → r2.form_id ≠ exResp.form_id :=
  C7_response_only_for_submitted exS5 exResp exS5_reachable (by decide)

/-! ## Claim C3 -/

/-- Counterexample to C3 as stated: after a reachable trace that submits a
form and then removes the answered question from the template
(`Template.remove_question` deletes the question row while
`Answer.question_id` is a plain integer column), the store contains an
answer whose `question_id` matches no question of the template. -/
theorem C3_counterexample : Reachable exS6 ∧ ¬ AnswersConsistent exS6 :=
  ⟨exS6_reachable, by decide⟩

/-- C3 amended: at submission time the invariant holds — every answer
created by the submission flow references a question belonging to the
template of the submitted form (and carries the new response's id); it can
only be broken later, by deleting questions from the template. -/
theorem C3_answers_reference_template_at_submission (s : DB) (fid rid now : Nat)
    (gen : String) (vals : Nat → String) (ans : Answer)
    (hm : ans ∈ (DB.apply s (Action.submit_form fid rid now gen vals)).answers)
    (hnew : ans ∉ s.answers) :
    ans.response_id = rid ∧
    ∃ f ∈ s.forms, f.id = fid ∧
      ∃ q ∈ DB.template_questions s f.template_id, q.id = ans.question_id := by
  cases hfind : s.forms.find? (fun f => f.id == fid) with
  | none =>
      exfalso
      have hsame : (DB.apply s (Action.submit_form fid rid now gen vals)).answers
          = s.answers := by
        simp [DB.apply, DB.submit_form, hfind]
      rw [hsame] at hm
      exact hnew hm
  | some f0 =>
      have hans : (DB.apply s (Action.submit_form fid rid now gen vals)).answers
          = s.answers ++
            List.map
              (fun q => { response_id := rid, question_id := q.id,
                          question_type := QuestionType.value q.question_type,
                          answer_value := vals q.id })
              (Template.get_questions s f0.template_id) := by
        simp [DB.apply, DB.submit_form, hfind]
      rw [hans] at hm
      rcases List.mem_append.mp hm with hold | hmap
      · exact absurd hold hnew
      · obtain ⟨q, hq, rfl⟩ := List.mem_map.mp hmap
        have hf0mem : f0 ∈ s.forms := List.mem_of_find?_eq_some hfind
        have hf0id : f0.id = fid := by simpa using List.find?_some hfind
        exact ⟨rfl, f0, hf0mem, hf0id, q, (List.mem_insertionSort _).mp hq, rfl⟩

/-- Witness for the amended C3: the answer created when form 1 is submitted
references question 1 of template 1. -/
theorem C3_witness :
    exAnswer.response_id = 10 ∧
    ∃ f ∈ exS4.forms, f.id = 1 ∧
      ∃ q ∈ DB.template_questions exS4 f.template_id, q.id = exAnswer.question_id :=
  C3_answers_reference_template_at_submission exS4 1 10 99 "genC"
    (fun _ => "Two years") exAnswer (by decide) (by decide)

/-! ## Claim C10 -/

/-- C10: saving a question with the unset order default (0) into a
template assigns it an order strictly greater than every existing order of
that template, equal to some existing order plus one (i.e. max + 1), or 1
when the template has no questions; every stored question of a reachable
store has order at least 1; and `get_questions` returns a template's
questions sorted in ascending order of the `order` field. -/
theorem C10_order_auto_assignment (s : DB) (tid : Nat) (q : Question) (hr : Reachable s) :
    (q.order = 0 → q.template_id ≠ 0 →
      (DB.template_questions s q.template_id = [] →
        (Question.save_assign_order s q).order = 1) ∧
      (∀ p ∈ DB.template_questions s q.template_id,
        p.order < (Question.save_assign_order s q).order) ∧
      (DB.template_questions s q.template_id ≠ [] →
        ∃ p ∈ DB.template_questions s q.template_id,
          (Question.save_assign_order s q).order = p.order + 1)) ∧
    (q ∈ s.questions → 1 ≤ q.order) ∧
    (Template.get_questions s tid).Pairwise (fun a b => a.order ≤ b.order) := by
  refine ⟨?_, ?_, ?_⟩
  · intro h0 ht
    have hcond : (q.order == 0 && !(q.template_id == 0)) = true := by
      simp [h0, ht]
    have heq : Question.save_assign_order s q =
        (match DB.last_question_order s q.template_id with
         | some m => { q with order := m + 1 }
         | Option.none => { q with order := 1 }) := by
      unfold Question.save_assign_order
      rw [if_pos hcond]
    cases hmap : (DB.template_questions s q.template_id).map Question.order with
    | nil =>
        have hnil : DB.template_questions s q.template_id = [] :=
          List.map_eq_nil_iff.mp hmap
        have hl : DB.last_question_order s q.template_id = Option.none := by
          unfold DB.last_question_order
          rw [hmap]
        refine ⟨fun _ => ?_, ?_, fun hne => absurd hnil hne⟩
        · rw [heq, hl]
        · intro p hp
          rw [hnil] at hp
          simp at hp
    | cons o os =>
        have hl : DB.last_question_order s q.template_id = some (os.foldl Nat.max o) := by
          unfold DB.last_question_order
          rw [hmap]
        have hord : (Question.save_assign_order s q).order = os.foldl Nat.max o + 1 := by
          rw [heq, hl]
        refine ⟨fun hnil => ?_, ?_, fun _ => ?_⟩
        · rw [hnil] at hmap
          simp at hmap
        · intro p hp
          have hpm : p.order ∈ o :: os := by
            rw [← hmap]
            exact List.mem_map_of_mem Question.order hp
          rw [hord]
          rcases List.mem_cons.mp hpm with hh | hh
          · have := foldl_max_le_init o os
            omega
          · have := foldl_max_le_mem o p.order os hh
            omega
        · have hmem : os.foldl Nat.max o ∈ o :: os := by
            rcases foldl_max_mem o os with hh | hh
            · rw [hh]
              exact List.mem_cons_self o os
            · exact List.mem_cons_of_mem o hh
          have : os.foldl Nat.max o ∈ (DB.template_questions s q.template_id).map
              Question.order := by
            rw [hmap]
            exact hmem
          obtain ⟨p, hp, hpe⟩ := List.mem_map.mp this
          exact ⟨p, hp, by rw [hord, hpe]⟩
  · intro hq
    exact (reachable_inv hr).2.2 q hq
  · exact List.sorted_insertionSort (fun a b : Question => a.order ≤ b.order)
      (DB.template_questions s tid)

/-- Witness for C10: adding unset-order question data to template 1 (whose
only question has order 1) assigns order 2, and `get_questions` is sorted
by order. -/
theorem C10_witness :
    (Question.save_assign_order exS2 exQZero).order = 2 ∧
    (Template.get_questions exS2 1).Pairwise (fun a b => a.order ≤ b.order) := by
  have h := C10_order_auto_assignment exS2 1 exQZero exS2_reachable
  have h1 := h.1 (by decide) (by decide)
  refine ⟨?_, h.2.2⟩
  obtain ⟨p, hp, he⟩ := h1.2.2 (by decide)
  have hl : DB.template_questions exS2 exQZero.template_id = [exQ1] := by decide
  rw [hl] at hp
  have hpe : p = exQ1 := List.mem_singleton.mp hp
  rw [he, hpe]
  rfl

/-! ## Claim C6 -/

/-- C6: duplicating a template appends exactly one new template row whose
description and instructions equal the original's, which starts inactive,
whose title is the given one or the original title suffixed with " (Copy)"
when none (or a blank one) is given; the duplicated template carries
exactly one copied question per original question with equal content
fields (text, type, required, order, choices, rating scale and labels, max
length, placeholder, help text); and the original template's questions are
unchanged. -/
theorem C6_duplicate (s : DB) (tid new_tid qbase : Nat) (ntitle : Option String)
    (nuser : Option Nat) (t : Template) (hr : Reachable s)
    (ha : DB.allowed s (Action.duplicate_template tid ntitle nuser new_tid qbase) = true)
    (ht : s.templates.find? (fun t2 => t2.id == tid) = some t) :
    (DB.apply s (Action.duplicate_template tid ntitle nuser new_tid qbase)).templates
      = s.templates ++ [duplicatedTemplate t ntitle nuser new_tid] ∧
    (duplicatedTemplate t ntitle nuser new_tid).id = new_tid ∧
    (duplicatedTemplate t ntitle nuser new_tid).description = t.description ∧
    (duplicatedTemplate t ntitle nuser new_tid).instructions = t.instructions ∧
    (duplicatedTemplate t ntitle nuser new_tid).is_active = false ∧
    ((ntitle = Option.none ∨ ntitle = some "") →
      (duplicatedTemplate t ntitle nuser new_tid).title = t.title ++ " (Copy)") ∧
    (∀ x, ntitle = some x → x ≠ "" →
      (duplicatedTemplate t ntitle nuser new_tid).title = x) ∧
    (DB.template_questions
        (DB.apply s (Action.duplicate_template tid ntitle nuser new_tid qbase))
        new_tid).map Question.content
      = (DB.template_questions s tid).map Question.content ∧
    DB.template_questions
        (DB.apply s (Action.duplicate_template tid ntitle nuser new_tid qbase)) tid
      = DB.template_questions s tid := by
  simp only [DB.allowed, Bool.and_eq_true, List.all_eq_true, List.any_eq_true,
    Bool.not_eq_true', beq_eq_false_iff_ne, beq_iff_eq, ne_eq, decide_eq_true_eq] at ha
  obtain ⟨⟨⟨⟨hntid0, hqbase0⟩, htplfresh⟩, hqfresh⟩, hextpl⟩ := ha
  have htid_t : t.id = tid := by simpa using List.find?_some ht
  have htmem : t ∈ s.templates := List.mem_of_find?_eq_some ht
  have htid_ne : tid ≠ new_tid := by
    intro he
    exact htplfresh t htmem (htid_t.trans he)
  have horder : ∀ q ∈ DB.template_questions s tid, q.order ≠ 0 := by
    intro q hq
    have hmem : q ∈ s.questions := (List.mem_filter.mp hq).1
    have := (reachable_inv hr).2.2 q hmem
    omega
  have htempl : (DB.apply s
      (Action.duplicate_template tid ntitle nuser new_tid qbase)).templates
      = s.templates ++ [duplicatedTemplate t ntitle nuser new_tid] := by
    simp only [DB.apply, DB.duplicate_template, ht]
    rw [dupGo_templates]
  have hquest : (DB.apply s
      (Action.duplicate_template tid ntitle nuser new_tid qbase)).questions
      = s.questions ++ dupRename new_tid qbase (DB.template_questions s tid) := by
    simp only [DB.apply, DB.duplicate_template, ht]
    rw [dupGo_questions _ _ _ _ horder]
  have hqnew : DB.template_questions
      (DB.apply s (Action.duplicate_template tid ntitle nuser new_tid qbase)) new_tid
      = dupRename new_tid qbase (DB.template_questions s tid) := by
    unfold DB.template_questions
    rw [hquest, List.filter_append]
    have h1 : s.questions.filter (fun q2 => q2.template_id == new_tid) = [] := by
      rw [List.filter_eq_nil_iff]
      intro a haq
      simp only [beq_iff_eq]
      exact (hqfresh a haq).1
    have h2 : (dupRename new_tid qbase (DB.template_questions s tid)).filter
        (fun q2 => q2.template_id == new_tid)
        = dupRename new_tid qbase (DB.template_questions s tid) := by
      rw [List.filter_eq_self]
      intro a haq
      simp only [beq_iff_eq]
      exact dupRename_template_id _ _ _ a haq
    rw [h1, h2, List.nil_append]
    rfl
  have hqold : DB.template_questions
      (DB.apply s (Action.duplicate_template tid ntitle nuser new_tid qbase)) tid
      = DB.template_questions s tid := by
    unfold DB.template_questions
    rw [hquest, List.filter_append]
    have h2 : (dupRename new_tid qbase (DB.template_questions s tid)).filter
        (fun q2 => q2.template_id == tid) = [] := by
      rw [List.filter_eq_nil_iff]
      intro a haq
      simp only [beq_iff_eq]
      rw [dupRename_template_id _ _ _ a haq]
      exact fun he => htid_ne he.symm
    rw [h2, List.append_nil]
  refine ⟨htempl, rfl, rfl, rfl, rfl, ?_, ?_, ?_, hqold⟩
  · intro hcase
    rcases hcase with rfl | rfl <;> rfl
  · intro x hx hne
    subst hx
    show (if x == "" then t.title ++ " (Copy)" else x) = x
    rw [if_neg]
    simpa using hne
  · rw [hqnew, dupRename_content]

/-- Witness for C6: duplicating template 1 of the example trace with no
title given produces "Reference Check (Copy)", inactive, with the same
question content, and leaves template 1's questions unchanged. -/
theorem C6_witness :
    (DB.apply exS2 (Action.duplicate_template 1 Option.none Option.none 2 50)).templates
      = exS2.templates ++ [duplicatedTemplate exTemplate Option.none Option.none 2] ∧
    (duplicatedTemplate exTemplate Option.none Option.none 2).title
      = exTemplate.title ++ " (Copy)" ∧
    (duplicatedTemplate exTemplate Option.none Option.none 2).is_active = false ∧
    (DB.template_questions
        (DB.apply exS2 (Action.duplicate_template 1 Option.none Option.none 2 50)) 2).map
        Question.content
      = (DB.template_questions exS2 1).map Question.content ∧
    DB.template_questions
        (DB.apply exS2 (Action.duplicate_template 1 Option.none Option.none 2 50)) 1
      = DB.template_questions exS2 1 := by
  have h := C6_duplicate exS2 1 2 50 Option.none Option.none exTemplate exS2_reachable
    (by decide) (by decide)
  exact ⟨h.1, h.2.2.2.2.2.1 (Or.inl rfl), h.2.2.2.2.1, h.2.2.2.2.2.2.2.1,
    h.2.2.2.2.2.2.2.2⟩

/-! ## Claim C4 -/

/-- The rating validator on a string answer that does not parse as an
integer: `int()` raises `ValueError`, caught and reported. -/
theorem validate_rating_str_none (q : Question) (str1 : String)
    (hp : pyParseInt str1 = Option.none) :
    Question.validate_rating_answer q (Ans.str str1) = (false, "Invalid rating value") := by
  unfold Question.validate_rating_answer
  rw [if_neg (by simp)]
  have hpy : Ans.pyInt (Ans.str str1) = pyParseInt str1 := rfl
  rw [hpy, hp]

/-- The rating validator on a string answer parsing to `r`: the result is
the 1..rating_scale range check. -/
theorem validate_rating_str_some (q : Question) (str1 : String) (r : Int)
    (hp : pyParseInt str1 = some r) :
    Question.validate_rating_answer q (Ans.str str1)
      = if r < 1 || r > (q.rating_scale : Int) then
          (false, "Rating must be between 1 and " ++ toString q.rating_scale)
        else (true, "") := by
  unfold Question.validate_rating_answer
  rw [if_neg (by simp)]
  have hpy : Ans.pyInt (Ans.str str1) = pyParseInt str1 := rfl
  rw [hpy, hp]

/-- Counterexample to C4 as stated: on a non-required RATING question, a
`None` answer is fed to `int()`, whose `TypeError` is caught and reported
as "Invalid rating value" — not accepted as the claim's parenthetical
says. -/
theorem C4_counterexample :
    exRatingOpt.question_type = QuestionType.RATING ∧ exRatingOpt.is_required = false ∧
    Question.validate_answer exRatingOpt Ans.none ≠ Except.ok (true, "") ∧
    Question.validate_answer exRatingOpt Ans.none
      = Except.ok (false, "Invalid rating value") := by decide

/-- C4 amended: for a RATING question, `validate_answer` returns
`(True, "")` exactly when the answer string parses as an integer in
1..rating_scale; a `None` answer yields "This field is required" when the
question is required and "Invalid rating value" otherwise; a non-parsing
string yields "Invalid rating value"; and a parsed out-of-range integer
yields "Rating must be between 1 and rating_scale". -/
theorem C4_rating_validation (q : Question) (str1 : String)
    (hq : q.question_type = QuestionType.RATING) :
    (q.is_required = true → Question.validate_answer q Ans.none
        = Except.ok (false, "This field is required")) ∧
    (q.is_required = false → Question.validate_answer q Ans.none
        = Except.ok (false, "Invalid rating value")) ∧
    (Question.validate_answer q (Ans.str str1) = Except.ok (true, "") ↔
      ∃ r, pyParseInt str1 = some r ∧ 1 ≤ r ∧ r ≤ (q.rating_scale : Int)) ∧
    (pyParseInt str1 = Option.none → Question.validate_answer q (Ans.str str1)
        = Except.ok (false, "Invalid rating value")) ∧
    (∀ r, pyParseInt str1 = some r → (r < 1 ∨ (q.rating_scale : Int) < r) →
      Question.validate_answer q (Ans.str str1)
        = Except.ok (false, "Rating must be between 1 and " ++ toString q.rating_scale)) := by
  have hv : ∀ a, Question.validate_answer q a
      = Except.ok (Question.validate_rating_answer q a) := by
    intro a
    unfold Question.validate_answer
    rw [hq]
  refine ⟨?_, ?_, ?_, ?_, ?_⟩
  · intro hreq
    rw [hv]
    unfold Question.validate_rating_answer
    simp [hreq, Ans.pyInt]
  · intro hreq
    rw [hv]
    unfold Question.validate_rating_answer
    simp [hreq, Ans.pyInt]
  · cases hp : pyParseInt str1 with
    | none =>
        rw [hv, validate_rating_str_none q str1 hp]
        constructor
        · intro he
          exact absurd he (by simp)
        · rintro ⟨r2, hr2, _⟩
          exact absurd hr2 (by simp)
    | some r =>
        rw [hv, validate_rating_str_some q str1 r hp]
        by_cases h1 : r < 1
        · rw [if_pos (by simp [h1])]
          constructor
          · intro he
            exact absurd he (by simp)
          · rintro ⟨r2, hr2, hle, _⟩
            injection hr2 with hr2
            omega
        · by_cases h2 : (q.rating_scale : Int) < r
          · rw [if_pos (by simp [h2])]
            constructor
            · intro he
              exact absurd he (by simp)
            · rintro ⟨r2, hr2, _, hge⟩
              injection hr2 with hr2
              omega
          · rw [if_neg (by simp; omega)]
            constructor
            · intro _
              exact ⟨r, rfl, by omega, by omega⟩
            · intro _
              rfl
  · intro hpn
    rw [hv, validate_rating_str_none q str1 hpn]
  · intro r hpr hrange
    rw [hv, validate_rating_str_some q str1 r hpr]
    rw [if_pos]
    rcases hrange with h | h
    · simp [h]
    · simp [h]

/-- Witness for the amended C4 on concrete rating questions. -/
theorem C4_witness :
    Question.validate_answer exRatingReq Ans.none
      = Except.ok (false, "This field is required") ∧
    Question.validate_answer exRatingOpt Ans.none
      = Except.ok (false, "Invalid rating value") ∧
    Question.validate_answer exRatingReq (Ans.str "3") = Except.ok (true, "") ∧
    Question.validate_answer exRatingReq (Ans.str "abc")
      = Except.ok (false, "Invalid rating value") ∧
    Question.validate_answer exRatingReq (Ans.str "9")
      = Except.ok (false, "Rating must be between 1 and 5") := by
  have hreq := C4_rating_validation exRatingReq "3" (by decide)
  have hopt := C4_rating_validation exRatingOpt "3" (by decide)
  have habc := C4_rating_validation exRatingReq "abc" (by decide)
  have h9 := C4_rating_validation exRatingReq "9" (by decide)
  refine ⟨hreq.1 (by decide), hopt.2.1 (by decide), ?_, habc.2.2.2.1 (by decide), ?_⟩
  · exact (hreq.2.2.1).mpr ⟨3, by decide, by decide, by decide⟩
  · exact h9.2.2.2.2 9 (by decide) (Or.inr (by decide))

/-! ## Claim C5 -/

/-- C5: for a SELECT or RADIO question, `validate_answer` returns
"This field is required" when the question is required and the answer is
empty (`None` or the empty string), "Invalid option selected" when a
non-empty answer is not among the configured choices, and `(True, "")`
otherwise — in particular a non-empty answer is accepted exactly when it is
one of the choices. -/
theorem C5_single_choice_validation (q : Question) (s1 : String)
    (hq : q.question_type = QuestionType.SELECT ∨ q.question_type = QuestionType.RADIO) :
    (q.is_required = true →
      Question.validate_answer q Ans.none = Except.ok (false, "This field is required") ∧
      Question.validate_answer q (Ans.str "")
        = Except.ok (false, "This field is required")) ∧
    (q.is_required = false →
      Question.validate_answer q Ans.none = Except.ok (true, "") ∧
      Question.validate_answer q (Ans.str "") = Except.ok (true, "")) ∧
    (s1 ≠ "" → (Question.get_choices_list q).contains s1 = false →
      Question.validate_answer q (Ans.str s1)
        = Except.ok (false, "Invalid option selected")) ∧
    (s1 ≠ "" → (Question.get_choices_list q).contains s1 = true →
      Question.validate_answer q (Ans.str s1) = Except.ok (true, "")) := by
  have hv : ∀ a, Question.validate_answer q a
      = Except.ok (Question.validate_single_choice_answer q a) := by
    intro a
    rcases hq with h | h <;> (unfold Question.validate_answer; rw [h])
  refine ⟨?_, ?_, ?_, ?_⟩
  · intro hreq
    constructor <;>
      (rw [hv]; unfold Question.validate_single_choice_answer; simp [hreq, Ans.truthy])
  · intro hreq
    constructor <;>
      (rw [hv]; unfold Question.validate_single_choice_answer; simp [hreq, Ans.truthy])
  · intro hne hnc
    rw [hv]
    unfold Question.validate_single_choice_answer
    simp [Ans.truthy, Ans.inChoices, hne]
    simpa using hnc
  · intro hne hc
    rw [hv]
    unfold Question.validate_single_choice_answer
    simp [Ans.truthy, Ans.inChoices, hne]
    simpa using hc

/-- Witness for C5 on concrete single-choice questions. -/
theorem C5_witness :
    Question.validate_answer exSelectReq Ans.none
      = Except.ok (false, "This field is required") ∧
    Question.validate_answer exRadioOpt Ans.none = Except.ok (true, "") ∧
    Question.validate_answer exSelectReq (Ans.str "Maybe")
      = Except.ok (false, "Invalid option selected") ∧
    Question.validate_answer exSelectReq (Ans.str "Yes") = Except.ok (true, "") := by
  have h1 := C5_single_choice_validation exSelectReq "Maybe" (Or.inl (by decide))
  have h2 := C5_single_choice_validation exRadioOpt "Yes" (Or.inr (by decide))
  have h3 := C5_single_choice_validation exSelectReq "Yes" (Or.inl (by decide))
  exact ⟨(h1.1 (by decide)).1, (h2.2.1 (by decide)).1, h1.2.2.1 (by decide) (by decide),
    h3.2.2.2 (by decide) (by decide)⟩

/-! ## Claim C8 -/

/-- Counterexample to C8 as stated: `QuestionType` has a ninth member,
TEXTAREA, absent from the spec's list of eight; a TEXTAREA question
validates through the text validator and renders as a textarea. -/
theorem C8_counterexample :
    exTextareaQ.question_type ∉ specEightTypes ∧
    Question.validate_answer exTextareaQ (Ans.str "long enough")
      = Question.validate_text_answer exTextareaQ (Ans.str "long enough") ∧
    Question.render_html exTextareaQ = Question.render_textarea exTextareaQ := by
  refine ⟨by decide, rfl, rfl⟩

/-- C8 amended: the Question model is polymorphic over exactly nine types
(text, textarea, select, radio, checkbox, rating, date, email, phone):
every question's type is one of the nine, and `validate_answer` and
`render_html` dispatch to the type-specific branch for each of them. -/
theorem C8_nine_type_dispatch (q : Question) (a : Ans) :
    (q.question_type = QuestionType.TEXT ∨ q.question_type = QuestionType.TEXTAREA ∨
     q.question_type = QuestionType.SELECT ∨ q.question_type = QuestionType.RADIO ∨
     q.question_type = QuestionType.CHECKBOX ∨ q.question_type = QuestionType.RATING ∨
     q.question_type = QuestionType.DATE ∨ q.question_type = QuestionType.EMAIL ∨
     q.question_type = QuestionType.PHONE) ∧
    (Question.validate_answer { q with question_type := QuestionType.TEXT } a
      = Question.validate_text_answer { q with question_type := QuestionType.TEXT } a) ∧
    (Question.render_html { q with question_type := QuestionType.TEXT }
      = Question.render_text_input { q with question_type := QuestionType.TEXT }) ∧
    (Question.validate_answer { q with question_type := QuestionType.TEXTAREA } a
      = Question.validate_text_answer { q with question_type := QuestionType.TEXTAREA } a) ∧
    (Question.render_html { q with question_type := QuestionType.TEXTAREA }
      = Question.render_textarea { q with question_type := QuestionType.TEXTAREA }) ∧
    (Question.validate_answer { q with question_type := QuestionType.SELECT } a
      = Except.ok (Question.validate_single_choice_answer
          { q with question_type := QuestionType.SELECT } a)) ∧
    (Question.render_html { q with question_type := QuestionType.SELECT }
      = Question.render_select { q with question_type := QuestionType.SELECT }) ∧
    (Question.validate_answer { q with question_type := QuestionType.RADIO } a
      = Except.ok (Question.validate_single_choice_answer
          { q with question_type := QuestionType.RADIO } a)) ∧
    (Question.render_html { q with question_type := QuestionType.RADIO }
      = Question.render_radio { q with question_type := QuestionType.RADIO }) ∧
    (Question.validate_answer { q with question_type := QuestionType.CHECKBOX } a
      = Question.validate_multiple_choice_answer
          { q with question_type := QuestionType.CHECKBOX } a) ∧
    (Question.render_html { q with question_type := QuestionType.CHECKBOX }
      = Question.render_checkbox { q with question_type := QuestionType.CHECKBOX }) ∧
    (Question.validate_answer { q with question_type := QuestionType.RATING } a
      = Except.ok (Question.validate_rating_answer
          { q with question_type := QuestionType.RATING } a)) ∧
    (Question.render_html { q with question_type := QuestionType.RATING }
      = Question.render_rating { q with question_type := QuestionType.RATING }) ∧
    (Question.validate_answer { q with question_type := QuestionType.DATE } a
      = Except.ok (Question.validate_date_answer
          { q with question_type := QuestionType.DATE } a)) ∧
    (Question.render_html { q with question_type := QuestionType.DATE }
      = Question.render_date_input { q with question_type := QuestionType.DATE }) ∧
    (Question.validate_answer { q with question_type := QuestionType.EMAIL } a
      = Question.validate_email_answer { q with question_type := QuestionType.EMAIL } a) ∧
    (Question.render_html { q with question_type := QuestionType.EMAIL }
      = Question.render_email_input { q with question_type := QuestionType.EMAIL }) ∧
    (Question.validate_answer { q with question_type := QuestionType.PHONE } a
      = Question.validate_phone_answer { q with question_type := QuestionType.PHONE } a) ∧
    (Question.render_html { q with question_type := QuestionType.PHONE }
      = Question.render_phone_input { q with question_type := QuestionType.PHONE }) := by
  refine ⟨?_, rfl, rfl, rfl, rfl, rfl, rfl, rfl, rfl, rfl, rfl, rfl, rfl, rfl, rfl,
    rfl, rfl, rfl, rfl⟩
  cases h : q.question_type <;> simp [h]

/-! ## Claim C9 -/

/-- Counterexample to C9 as stated: when the referential lookup itself
raises (here an answer whose `response_id` matches no stored response),
`Answer.validate` returns `(False, str(e))` — the exception's message, not
"Question not found" — while `get_question_text` does fall back to the
placeholder. -/
theorem C9_counterexample :
    DB.answer_template exDanglingDB exDanglingAnswer
      = Except.error "Answer has no response." ∧
    Answer.validate exDanglingDB exDanglingAnswer ≠ (false, "Question not found") ∧
    Answer.validate exDanglingDB exDanglingAnswer = (false, "Answer has no response.") ∧
    Answer.get_question_text exDanglingDB exDanglingAnswer = "Question 1" := by decide

/-- C9 amended: an answer whose `question_id` matches no question of the
resolved template gets the placeholder text from `get_question_text` and
`(False, "Question not found")` from `validate`, without raising; when the
referential lookup itself raises, both methods still do not raise —
`get_question_text` returns the placeholder and `validate` returns
`(False, str(e))` with the exception's message. -/
theorem C9_lookup_fallbacks (s : DB) (a : Answer) (t : Template) :
    (DB.answer_template s a = Except.ok t →
      (Template.get_questions s t.id).find? (fun q => q.id == a.question_id)
        = Option.none →
      Answer.get_question_text s a = "Question " ++ toString a.question_id ∧
      Answer.validate s a = (false, "Question not found")) ∧
    (∀ e, DB.answer_template s a = Except.error e →
      Answer.get_question_text s a = "Question " ++ toString a.question_id ∧
      Answer.validate s a = (false, e)) := by
  constructor
  · intro hok hfind
    constructor
    · simp [Answer.get_question_text, hok, hfind]
    · simp [Answer.validate, hok, hfind]
  · intro e herr
    constructor
    · simp [Answer.get_question_text, herr]
    · simp [Answer.validate, herr]

/-- Witness for C9: in the trace where the answered question was removed,
the stored answer falls back to placeholder text and "Question not found";
for a dangling answer the lookup exception is caught and reported. -/
theorem C9_witness :
    Answer.get_question_text exS6 exAnswer = "Question 1" ∧
    Answer.validate exS6 exAnswer = (false, "Question not found") ∧
    Answer.get_question_text exDanglingDB exDanglingAnswer = "Question 1" ∧
    Answer.validate exDanglingDB exDanglingAnswer = (false, "Answer has no response.") := by
  have h1 := (C9_lookup_fallbacks exS6 exAnswer exTemplate).1 (by decide) (by decide)
  have h2 := (C9_lookup_fallbacks exDanglingDB exDanglingAnswer exTemplate).2
    "Answer has no response." (by decide)
  exact ⟨h1.1, h1.2, h2.1, h2.2⟩

end RefCheck
